import Mathlib

/-!
# Query client and SQL connector of ydb-go-sdk

A shallow embedding of `internal/query/client.go` and of the connector of
`ydbsql/connector.go`.

Every call that leaves the file (an RPC of the query service, a method of the attach
stream, a hook, the user's operation) is a field of an environment record and is a
function of an explicit world `σ`: it receives the current world and returns its
result together with the next world.  Nothing is assumed about these functions, so
quantifying over the environment covers every outcome the collaborators can produce,
including outcomes that depend on what happened before.

Goroutines are not interleaved: `createSession` is embedded up to its return, and the
monitor it starts is the separate function `monitor`, run on its own on a session in an
arbitrary status.  Concurrent callers of the pool are the sequences of the atomic steps
of its bookkeeping.

Code that panics returns a `Run`, a value or the message of the panic.

A Go `error` is an `Option Err` (`none` is `nil`).

To speak about which calls are issued, an environment can be wrapped by `traced`: the
wrapped environment behaves like the original one and appends one event per call to a
log carried next to the world.  The embedded functions themselves are not changed.
-/

namespace YdbQuery

/-! ## Errors -/

/-- Status code of an operation answer (`Ydb.StatusIds_StatusCode`). -/
abbrev StatusCode := Nat

/-- The protobuf constant `Ydb.StatusIds_SUCCESS`. -/
def StatusIds_SUCCESS : StatusCode := 400000

/-- Modelled from the spec: the package `internal/xerrors` is not among the sources.
Errors are the free terms over its constructors: `raw` is an error produced by a
collaborator, `withStackTrace` is `xerrors.WithStackTrace`, `transport` is
`xerrors.Transport`, `fromOperation` is `xerrors.FromOperation` (keeping the status of
the answer), and `join` is `xerrors.Join` applied to two errors, a structured container
whose constituents stay inspectable. -/
inductive Err where
  | raw (code : Nat)
  | withStackTrace (err : Err)
  | transport (err : Err)
  | fromOperation (status : StatusCode)
  | join (first second : Err)
  deriving DecidableEq, Repr

/-- Add `k` stack-trace annotations on top of `e`. -/
def Err.stack : Nat → Err → Err
  | 0, e => e
  | k + 1, e => Err.withStackTrace (Err.stack k e)

/-- Says that `r` is `e` with nothing but stack-trace annotations added on top, so that
`e` is the whole cause of `r`. -/
def Err.Wraps (r e : Err) : Prop := ∃ k, r = Err.stack k e

/-- Number of constructors of an error term. -/
def Err.size : Err → Nat
  | .raw _ => 1
  | .withStackTrace e => e.size + 1
  | .transport e => e.size + 1
  | .fromOperation _ => 1
  | .join a b => a.size + b.size + 1

/-- Two results agree up to stack traces: both are `nil`, or the first is an error whose
whole cause is the second. -/
def SameOutcome : Option Err → Option Err → Prop
  | none, none => True
  | some r, some e => Err.Wraps r e
  | _, _ => False

/-! ## Sessions -/

/-- Modelled from the spec: `query.SessionStatus` is declared outside the sources; the
spec enumerates Ready, InUse, Closing, Closed. -/
inductive SessionStatus where
  | Ready
  | InUse
  | Closing
  | Closed
  deriving DecidableEq, Repr

/-- Handle of an attach stream (`Ydb_Query_V1.QueryService_AttachSessionClient`). -/
structure AttachStream where
  handle : Nat
  deriving DecidableEq, Repr

/-- Value built by `sync.OnceFunc` in `createSession`: the stream captured by the wrapped
closure and whether the closure has already run. -/
structure OnceFunc where
  attach : AttachStream
  done : Bool
  deriving DecidableEq, Repr

/-- Modelled from the spec: the struct `Session` is declared in a file that is not among
the sources.  It has the fields `createSession` assigns: `id`, `nodeID`, `status` and
`close` (`none` while the field is still `nil`). -/
structure Session where
  id : String
  nodeID : Int
  status : SessionStatus
  close : Option OnceFunc
  deriving DecidableEq, Repr

/-- Modelled from the spec: `Session.Status` is declared outside the sources; it reads
the status field atomically. -/
def Session.Status (s : Session) : SessionStatus := s.status

/-! ## Transactions: `do` and `doTx` -/

/-- Transaction settings chosen at begin time (`query.TransactionSettings`). -/
structure TxSettings where
  mode : Nat
  deriving DecidableEq, Repr

/-- Handle of an open transaction (`query.Transaction`). -/
structure Transaction where
  handle : Nat
  deriving DecidableEq, Repr

/-- Option handed to the retry executor (`retry.Option`): one supplied by the caller,
`retry.WithLabel` or `retry.WithIdempotent`. -/
inductive RetryOption where
  | caller (tag : Nat)
  | WithLabel (label : String)
  | WithIdempotent (idempotent : Bool)
  deriving DecidableEq, Repr

/-- Fields of `query.DoOptions` that `client.go` reads. -/
structure DoOptions where
  Label : String
  Idempotent : Bool
  RetryOptions : List RetryOption
  deriving DecidableEq, Repr

/-- Fields of `query.DoTxOptions` that `client.go` reads: the embedded `DoOptions` and
the transaction settings. -/
structure DoTxOptions extends DoOptions where
  TxSettings : TxSettings
  deriving DecidableEq, Repr

/-- Methods `doTx` calls on the session and on the transaction it opens. -/
structure TxEnv (σ : Type) where
  Begin : Session → TxSettings → σ → Except Err Transaction × σ
  CommitTx : Transaction → σ → Option Err × σ
  Rollback : Transaction → σ → Option Err × σ

/-- The type `query.Operation`: user code run on a session. -/
abbrev Operation (σ : Type) := Session → σ → Option Err × σ

/-- The type `query.TxOperation`: user code run on an open transaction. -/
abbrev TxOperation (σ : Type) := Transaction → σ → Option Err × σ

/-- The session pool as `do` uses it: the method `With` of `pool.Pool[Session]`, whose
code is not among the sources and is therefore left arbitrary. -/
structure Pool (σ : Type) where
  With : (Session → σ → Option Err × σ) → σ → Option Err × σ

/-- The callback `do` passes to `pool.With` (client.go:45-52). -/
def doCallback {σ : Type} (op : Operation σ) : Session → σ → Option Err × σ :=
  fun s st =>
    match op s st with
    | (some err, st1) => (some (Err.withStackTrace err), st1)
    | (none, st1) => (none, st1)

/-- One attempt of `do`: the function handed to `retry.Retry` (client.go:44-58). -/
def doAttempt {σ : Type} (pool : Pool σ) (op : Operation σ) : σ → Option Err × σ :=
  fun st =>
    match pool.With (doCallback op) st with
    | (some err, st1) => (some (Err.withStackTrace err), st1)
    | (none, st1) => (none, st1)

/-- The operation `doTx` hands to `do` (client.go:74-99). -/
def doTxOperation {σ : Type} (env : TxEnv σ) (op : TxOperation σ) (opts : DoTxOptions) :
    Operation σ :=
  fun s st =>
    match env.Begin s opts.TxSettings st with
    | (.error err, st1) => (some (Err.withStackTrace err), st1)
    | (.ok tx, st1) =>
      match op tx st1 with
      | (some err, st2) =>
        match env.Rollback tx st2 with
        | (some errRollback, st3) =>
          (some (Err.withStackTrace (Err.join err errRollback)), st3)
        | (none, st3) => (some (Err.withStackTrace err), st3)
      | (none, st2) =>
        match env.CommitTx tx st2 with
        | (some err, st3) =>
          match env.Rollback tx st3 with
          | (some errRollback, st4) =>
            (some (Err.withStackTrace (Err.join err errRollback)), st4)
          | (none, st4) => (some (Err.withStackTrace err), st4)
        | (none, st3) => (none, st3)

/-- One attempt of `doTx`: `do` applied to the operation above (client.go:73-100). -/
def doTxAttempt {σ : Type} (pool : Pool σ) (env : TxEnv σ) (op : TxOperation σ)
    (opts : DoTxOptions) : σ → Option Err × σ :=
  doAttempt pool (doTxOperation env op opts)

/-- The callback a `doTx` attempt runs inside `pool.With`. -/
def doTxCallback {σ : Type} (env : TxEnv σ) (op : TxOperation σ) (opts : DoTxOptions) :
    Session → σ → Option Err × σ :=
  doCallback (doTxOperation env op opts)

/-- Says that `With`, called in world `w0`, acquires `sess`, runs its callback on it from
world `w1`, and returns `nil` exactly when the callback does and otherwise an error whose
whole cause is the callback's error. -/
def Pool.RunsCallback {σ : Type} (pool : Pool σ) (w0 : σ) (sess : Session) (w1 : σ) :
    Prop :=
  ∀ f : Session → σ → Option Err × σ, SameOutcome (pool.With f w0).1 (f sess w1).1

/-- A pool that always hands out the same session and returns what the callback returns. -/
def Pool.direct {σ : Type} (sess : Session) : Pool σ where
  With := fun f st => f sess st

/-- A call issued by the `doTx` callback, with what it returned. -/
inductive TxEvent where
  | Begin (s : Session) (settings : TxSettings) (res : Except Err Transaction)
  | op (tx : Transaction) (res : Option Err)
  | CommitTx (tx : Transaction) (res : Option Err)
  | Rollback (tx : Transaction) (res : Option Err)

/-- The same environment, logging every call. -/
def TxEnv.traced {σ : Type} (env : TxEnv σ) : TxEnv (σ × List TxEvent) where
  Begin := fun s settings w =>
    ((env.Begin s settings w.1).1,
      ((env.Begin s settings w.1).2, w.2 ++ [TxEvent.Begin s settings (env.Begin s settings w.1).1]))
  CommitTx := fun tx w =>
    ((env.CommitTx tx w.1).1,
      ((env.CommitTx tx w.1).2, w.2 ++ [TxEvent.CommitTx tx (env.CommitTx tx w.1).1]))
  Rollback := fun tx w =>
    ((env.Rollback tx w.1).1,
      ((env.Rollback tx w.1).2, w.2 ++ [TxEvent.Rollback tx (env.Rollback tx w.1).1]))

/-- The same user operation, logging its invocation. -/
def tracedOp {σ : Type} (op : TxOperation σ) : TxOperation (σ × List TxEvent) :=
  fun tx w => ((op tx w.1).1, ((op tx w.1).2, w.2 ++ [TxEvent.op tx (op tx w.1).1]))

/-- States of the per-attempt transaction state machine of the spec:
`NoTx → Begun → {Committed | RolledBack | RollbackFailed}`. -/
inductive TxState where
  | NoTx
  | Begun
  | Committed
  | RolledBack
  | RollbackFailed
  deriving DecidableEq, Repr

/-- Transition of the spec's transaction state machine on one logged call. -/
def TxState.step : TxState → TxEvent → TxState
  | .NoTx, .Begin _ _ (.ok _) => .Begun
  | .Begun, .CommitTx _ none => .Committed
  | .Begun, .Rollback _ none => .RolledBack
  | .Begun, .Rollback _ (some _) => .RollbackFailed
  | s, _ => s

/-- State of the transaction state machine after a log of calls. -/
def txStateAfter (log : List TxEvent) : TxState :=
  log.foldl TxState.step TxState.NoTx

/-! ## Session creation, close and the liveness monitor -/

/-- Answer of the `CreateSession` RPC (`Ydb_Query.CreateSessionResponse`). -/
structure CreateSessionResponse where
  status : StatusCode
  sessionId : String
  nodeId : Int
  deriving DecidableEq, Repr

/-- Answer of the `DeleteSession` RPC (`Ydb_Query.DeleteSessionResponse`). -/
structure DeleteSessionResponse where
  status : StatusCode
  deriving DecidableEq, Repr

/-- Message of the attach stream (`Ydb_Query.SessionState`). -/
structure SessionState where
  status : StatusCode
  deriving DecidableEq, Repr

/-- Collaborators of `createSession`: the RPCs of `Ydb_Query_V1.QueryServiceClient`, the
methods `Recv` and `CloseSend` of the attach stream, and `cancelAttach`, the cancel
function `xcontext.WithCancel` returns for the attach context. -/
structure QueryEnv (σ : Type) where
  CreateSession : σ → Except Err CreateSessionResponse × σ
  DeleteSession : String → σ → Except Err DeleteSessionResponse × σ
  AttachSession : String → σ → Except Err AttachStream × σ
  Recv : AttachStream → σ → Except Err SessionState × σ
  CloseSend : AttachStream → σ → Option Err × σ
  cancelAttach : σ → σ

/-- The struct `createSessionConfig` (client.go:130-133); `none` is a `nil` hook. -/
structure createSessionConfig (σ : Type) where
  onAttach : Option (Session → σ → σ)
  onClose : Option (Session → σ → σ)

/-- The function `deleteSession` (client.go:114-128). -/
def deleteSession {σ : Type} (env : QueryEnv σ) (sessionID : String) (st : σ) :
    Option Err × σ :=
  match env.DeleteSession sessionID st with
  | (.error err, st1) => (some (Err.withStackTrace (Err.transport err)), st1)
  | (.ok response, st1) =>
    if response.status ≠ StatusIds_SUCCESS then
      (some (Err.withStackTrace (Err.fromOperation response.status)), st1)
    else
      (none, st1)

/-- The deferred functions of `createSession` (client.go:151-155, 158-162, 173-177), run
at return in the reverse order of their registration.  `attach` is `none` when the
function returns before the third one is registered. -/
def createSessionDeferred {σ : Type} (env : QueryEnv σ) (sessionId : String)
    (attach : Option AttachStream) (finalErr : Option Err) (st : σ) : σ :=
  let st1 :=
    match attach with
    | some a => if finalErr ≠ none then (env.CloseSend a st).2 else st
    | none => st
  let st2 := if finalErr ≠ none then env.cancelAttach st1 else st1
  if finalErr ≠ none then (deleteSession env sessionId st2).2 else st2

/-- The function `createSession` (client.go:135-230) up to its return.  The result is the
pair the Go function returns.  The goroutine started on line 214 runs `monitor` below on
the returned session; it is not part of the value returned here. -/
def createSession {σ : Type} (env : QueryEnv σ) (cfg : createSessionConfig σ) (st : σ) :
    (Option Session × Option Err) × σ :=
  match env.CreateSession st with
  | (.error err, st1) => ((none, some (Err.withStackTrace (Err.transport err))), st1)
  | (.ok s, st1) =>
    if s.status ≠ StatusIds_SUCCESS then
      ((none, some (Err.withStackTrace (Err.fromOperation s.status))), st1)
    else
      match env.AttachSession s.sessionId st1 with
      | (.error err, st2) =>
        let finalErr := some (Err.withStackTrace (Err.transport err))
        ((none, finalErr), createSessionDeferred env s.sessionId none finalErr st2)
      | (.ok attach, st2) =>
        match env.Recv attach st2 with
        | (.error err, st3) =>
          let finalErr := some (Err.withStackTrace (Err.transport err))
          ((none, finalErr), createSessionDeferred env s.sessionId (some attach) finalErr st3)
        | (.ok state, st3) =>
          if state.status ≠ StatusIds_SUCCESS then
            let finalErr := some (Err.withStackTrace (Err.fromOperation state.status))
            ((none, finalErr),
              createSessionDeferred env s.sessionId (some attach) finalErr st3)
          else
            let session : Session :=
              { id := s.sessionId, nodeID := s.nodeId, status := SessionStatus.Ready,
                close := none }
            let st4 :=
              match cfg.onAttach with
              | some hook => hook session st3
              | none => st3
            let session := { session with close := some { attach := attach, done := false } }
            ((some session, none),
              createSessionDeferred env s.sessionId (some attach) none st4)

/-- One invocation of `session.close` (client.go:199-212).  A `nil` function value cannot
be called: the result is `none`.  `sync.OnceFunc` runs the closure on the first
invocation only; the closure calls the `onClose` hook when there is one, closes the send
side of the stream, cancels the attach context and stores the status `Closed`. -/
def Session.invokeClose {σ : Type} (env : QueryEnv σ) (cfg : createSessionConfig σ)
    (session : Session) (st : σ) : Option (Session × σ) :=
  match session.close with
  | none => none
  | some once =>
    if once.done then
      some (session, st)
    else
      let st1 :=
        match cfg.onClose with
        | some hook => hook session st
        | none => st
      let st2 := (env.CloseSend once.attach st1).2
      let st3 := env.cancelAttach st2
      some ({ session with status := SessionStatus.Closed,
                           close := some { once with done := true } }, st3)

/-- Invoke `session.close` `n` times in a row. -/
def closeTimes {σ : Type} (env : QueryEnv σ) (cfg : createSessionConfig σ) :
    Nat → Session → σ → Option (Session × σ)
  | 0, session, st => some (session, st)
  | n + 1, session, st =>
    match Session.invokeClose env cfg session st with
    | none => none
    | some (session1, st1) => closeTimes env cfg n session1 st1

/-- The loop of the monitor goroutine (client.go:216-226) with a bound on the number of
iterations: `none` when the bound is reached before the loop returns. -/
def monitorLoop {σ : Type} (env : QueryEnv σ) (attach : AttachStream) :
    Nat → Session → σ → Option σ
  | 0, _, _ => none
  | fuel + 1, session, st =>
    match session.Status with
    | SessionStatus.Ready | SessionStatus.InUse =>
      match env.Recv attach st with
      | (.error _, st1) => some st1
      | (.ok sessionState, st1) =>
        if sessionState.status ≠ StatusIds_SUCCESS then some st1
        else monitorLoop env attach fuel session st1
    | _ => some st

/-- The monitor goroutine (client.go:214-227): the loop, then the deferred
`session.close()`. -/
def monitor {σ : Type} (env : QueryEnv σ) (cfg : createSessionConfig σ)
    (attach : AttachStream) (fuel : Nat) (session : Session) (st : σ) :
    Option (Session × σ) :=
  match monitorLoop env attach fuel session st with
  | none => none
  | some st1 => Session.invokeClose env cfg session st1

/-- A call issued by `createSession`, by `session.close` or by the monitor. -/
inductive QueryEvent where
  | CreateSession
  | DeleteSession (sessionId : String)
  | AttachSession (sessionId : String)
  | Recv (attach : AttachStream)
  | CloseSend (attach : AttachStream)
  | cancelAttach
  | onAttach (s : Session)
  | onClose (s : Session)
  deriving DecidableEq, Repr

/-- The same collaborators, logging every call. -/
def QueryEnv.traced {σ : Type} (env : QueryEnv σ) : QueryEnv (σ × List QueryEvent) where
  CreateSession := fun w =>
    ((env.CreateSession w.1).1, ((env.CreateSession w.1).2, w.2 ++ [QueryEvent.CreateSession]))
  DeleteSession := fun id w =>
    ((env.DeleteSession id w.1).1,
      ((env.DeleteSession id w.1).2, w.2 ++ [QueryEvent.DeleteSession id]))
  AttachSession := fun id w =>
    ((env.AttachSession id w.1).1,
      ((env.AttachSession id w.1).2, w.2 ++ [QueryEvent.AttachSession id]))
  Recv := fun a w => ((env.Recv a w.1).1, ((env.Recv a w.1).2, w.2 ++ [QueryEvent.Recv a]))
  CloseSend := fun a w =>
    ((env.CloseSend a w.1).1, ((env.CloseSend a w.1).2, w.2 ++ [QueryEvent.CloseSend a]))
  cancelAttach := fun w => (env.cancelAttach w.1, w.2 ++ [QueryEvent.cancelAttach])

/-- The same hooks, logging every call. -/
def createSessionConfig.traced {σ : Type} (cfg : createSessionConfig σ) :
    createSessionConfig (σ × List QueryEvent) where
  onAttach := cfg.onAttach.map fun hook s w => (hook s w.1, w.2 ++ [QueryEvent.onAttach s])
  onClose := cfg.onClose.map fun hook s w => (hook s w.1, w.2 ++ [QueryEvent.onClose s])

/-- Tests whether an event is a `DeleteSession` call. -/
def QueryEvent.isDeleteSession : QueryEvent → Bool
  | .DeleteSession _ => true
  | _ => false

/-- Tests whether an event is a call of the `onAttach` hook. -/
def QueryEvent.isOnAttach : QueryEvent → Bool
  | .onAttach _ => true
  | _ => false

/-- Tests whether an event is a call of the `onClose` hook. -/
def QueryEvent.isOnClose : QueryEvent → Bool
  | .onClose _ => true
  | _ => false

/-- Tests whether an event is a `Recv` on the attach stream. -/
def QueryEvent.isRecv : QueryEvent → Bool
  | .Recv _ => true
  | _ => false

/-- Tests whether an event is a `CloseSend` on the attach stream. -/
def QueryEvent.isCloseSend : QueryEvent → Bool
  | .CloseSend _ => true
  | _ => false

/-- The calls of one run of the closure wrapped by `session.close` on `session`: the
`onClose` hook when there is one, then `CloseSend` on the stream and `cancelAttach`. -/
def closeEvents {σ : Type} (cfg : createSessionConfig σ) (session : Session)
    (attach : AttachStream) : List QueryEvent :=
  (match cfg.onClose with
    | some _ => [QueryEvent.onClose session]
    | none => []) ++ [QueryEvent.CloseSend attach, QueryEvent.cancelAttach]

/-- Says that from world `st` the stream `attach` delivers exactly the messages `msgs`,
one per `Recv`, and then fails the next `Recv` with `e`. -/
def QueryEnv.Delivers {σ : Type} (env : QueryEnv σ) (attach : AttachStream) :
    List SessionState → Err → σ → Prop
  | [], e, st => (env.Recv attach st).1 = Except.error e
  | m :: ms, e, st =>
    (env.Recv attach st).1 = Except.ok m ∧ QueryEnv.Delivers env attach ms e (env.Recv attach st).2

/-- Number of `Recv` calls after which the monitor loop returns when the stream delivers
`msgs` and then an error: every leading success message is read, and so is the message
or error that follows them. -/
def readsUntilStop (msgs : List SessionState) : Nat :=
  (msgs.takeWhile fun m => m.status = StatusIds_SUCCESS).length + 1

/-! ## The retry wrappers `do`, `Do` and `DoTx` -/

/-- The retry executor `retry.Retry`, whose code is not among the sources and is
therefore left arbitrary: it receives the function to attempt and the retry options. -/
abbrev RetryExecutor (σ : Type) := (σ → Option Err × σ) → List RetryOption → σ → Option Err × σ

/-- The function `do` (client.go:43-59): the attempt and `opts.RetryOptions` are handed
to `retry.Retry`. -/
def do_ {σ : Type} (Retry : RetryExecutor σ) (pool : Pool σ) (op : Operation σ)
    (opts : DoOptions) : σ → Option Err × σ :=
  Retry (doAttempt pool op) opts.RetryOptions

/-- The function `doTx` (client.go:73-100): `do` on the transaction operation and on the
embedded `DoOptions`. -/
def doTx {σ : Type} (Retry : RetryExecutor σ) (pool : Pool σ) (env : TxEnv σ)
    (op : TxOperation σ) (opts : DoTxOptions) : σ → Option Err × σ :=
  do_ Retry pool (doTxOperation env op opts) opts.toDoOptions

/-- The method `Client.Do` (client.go:61-71).  `NewDoOptions` is `query.NewDoOptions`,
declared outside the sources: it is a parameter, as is the type `δ` of the options of
the caller; `pool` is `c.pool`. -/
def Client.Do {σ δ : Type} (Retry : RetryExecutor σ) (NewDoOptions : List δ → DoOptions)
    (pool : Pool σ) (op : Operation σ) (opts : List δ) : σ → Option Err × σ :=
  let doOptions := NewDoOptions opts
  let doOptions :=
    if doOptions.Label ≠ "" then
      { doOptions with
        RetryOptions := doOptions.RetryOptions ++ [RetryOption.WithLabel doOptions.Label] }
    else doOptions
  let doOptions :=
    if doOptions.Idempotent then
      { doOptions with
        RetryOptions :=
          doOptions.RetryOptions ++ [RetryOption.WithIdempotent doOptions.Idempotent] }
    else doOptions
  do_ Retry pool op doOptions

/-- The method `Client.DoTx` (client.go:102-112).  `NewDoTxOptions` is
`query.NewDoTxOptions`, declared outside the sources: it is a parameter. -/
def Client.DoTx {σ δ : Type} (Retry : RetryExecutor σ) (NewDoTxOptions : List δ → DoTxOptions)
    (pool : Pool σ) (env : TxEnv σ) (op : TxOperation σ) (opts : List δ) :
    σ → Option Err × σ :=
  let doTxOptions := NewDoTxOptions opts
  let doTxOptions :=
    if doTxOptions.Label ≠ "" then
      { doTxOptions with
        RetryOptions := doTxOptions.RetryOptions ++ [RetryOption.WithLabel doTxOptions.Label] }
    else doTxOptions
  let doTxOptions :=
    if doTxOptions.Idempotent then
      { doTxOptions with
        RetryOptions :=
          doTxOptions.RetryOptions ++ [RetryOption.WithIdempotent doTxOptions.Idempotent] }
    else doTxOptions
  doTx Retry pool env op doTxOptions

/-- The retry options the spec lets `Do` and `DoTx` present to the retry executor, for
options of the caller parsed as `o`: the retry options of the caller in their order,
then a label option exactly when the label is not empty, then an idempotent option
exactly when the flag is set. -/
def presentedRetryOptions (o : DoOptions) : List RetryOption :=
  o.RetryOptions ++ (if o.Label = "" then [] else [RetryOption.WithLabel o.Label]) ++
    (if o.Idempotent = true then [RetryOption.WithIdempotent true] else [])

/-- A retry executor that runs nothing and reports the options it was given in the
world. -/
def recordingRetry : RetryExecutor (List RetryOption) :=
  fun _ opts _ => (none, opts)

/-! ## The pool's `With` as the spec describes it -/

/-- Modelled from the spec: the method `With` of `pool.Pool` (the package `internal/pool`
is not among the sources).  The record holds what the spec leaves to the pool and its
collaborators: `acquire` is the acquisition of a slot (reuse of an idle resource,
construction of a new one, or failure by a construction error or by a done context),
`mustDelete` is the classifier of errors that make a resource unusable, `delete` destroys
a resource through the close function and `putIdle` returns it to the idle set. -/
structure SlotPool (σ : Type) where
  acquire : σ → Except Err Session × σ
  mustDelete : Err → Bool
  delete : Session → σ → σ
  putIdle : Session → σ → σ

/-- Modelled from the spec: `Pool.With` of the missing package `internal/pool`.  "Acquire
a slot", failing with the acquisition error; "mark the resource InUse, run `fn` with it";
"on return: if `fn` returned an error and the classifier says the resource is unusable,
delete it, otherwise mark it Ready and return it to idle".  The error of `fn` is the
result. -/
def SlotPool.With {σ : Type} (p : SlotPool σ) (fn : Session → σ → Option Err × σ) (st : σ) :
    Option Err × σ :=
  match p.acquire st with
  | (.error err, st1) => (some err, st1)
  | (.ok s, st1) =>
    match fn { s with status := SessionStatus.InUse } st1 with
    | (some err, st2) =>
      if p.mustDelete err then (some err, p.delete s st2)
      else (some err, p.putIdle { s with status := SessionStatus.Ready } st2)
    | (none, st2) => (none, p.putIdle { s with status := SessionStatus.Ready } st2)

/-- A call observed during an attempt: the call of `pool.With`, the acquisition inside
it with its result, a call of the transaction callback, and the return of the session
to the idle set or its deletion. -/
inductive AttemptEvent where
  | With
  | acquire (res : Except Err Session)
  | tx (e : TxEvent)
  | putIdle (s : Session)
  | delete (s : Session)

/-- Tests whether an event is a call of `pool.With`. -/
def AttemptEvent.isWith : AttemptEvent → Bool
  | .With => true
  | _ => false

/-- The pool of the spec with logging collaborators, as the `pool` argument of `do`: a
call of `With` is logged, and so are the acquisition and the release or deletion. -/
def SlotPool.tracedPool {σ : Type} (p : SlotPool σ) : Pool (σ × List AttemptEvent) where
  With := fun fn w =>
    SlotPool.With
      { acquire := fun w1 =>
          ((p.acquire w1.1).1,
            ((p.acquire w1.1).2, w1.2 ++ [AttemptEvent.acquire (p.acquire w1.1).1]))
        mustDelete := p.mustDelete
        delete := fun s w1 => (p.delete s w1.1, w1.2 ++ [AttemptEvent.delete s])
        putIdle := fun s w1 => (p.putIdle s w1.1, w1.2 ++ [AttemptEvent.putIdle s]) }
      fn (w.1, w.2 ++ [AttemptEvent.With])

/-- The transaction environment, logging every call as an attempt event. -/
def TxEnv.tracedAttempt {σ : Type} (env : TxEnv σ) : TxEnv (σ × List AttemptEvent) where
  Begin := fun s settings w =>
    ((env.Begin s settings w.1).1,
      ((env.Begin s settings w.1).2,
        w.2 ++ [AttemptEvent.tx (TxEvent.Begin s settings (env.Begin s settings w.1).1)]))
  CommitTx := fun tx w =>
    ((env.CommitTx tx w.1).1,
      ((env.CommitTx tx w.1).2,
        w.2 ++ [AttemptEvent.tx (TxEvent.CommitTx tx (env.CommitTx tx w.1).1)]))
  Rollback := fun tx w =>
    ((env.Rollback tx w.1).1,
      ((env.Rollback tx w.1).2,
        w.2 ++ [AttemptEvent.tx (TxEvent.Rollback tx (env.Rollback tx w.1).1)]))

/-- The user operation, logging its invocation as an attempt event. -/
def tracedAttemptOp {σ : Type} (op : TxOperation σ) : TxOperation (σ × List AttemptEvent) :=
  fun tx w =>
    ((op tx w.1).1, ((op tx w.1).2, w.2 ++ [AttemptEvent.tx (TxEvent.op tx (op tx w.1).1)]))

/-- One attempt of `doTx` on the pool of the spec, every collaborator logging, started
with an empty log. -/
def runDoTxAttempt {σ : Type} (p : SlotPool σ) (env : TxEnv σ) (op : TxOperation σ)
    (opts : DoTxOptions) (st : σ) : Option Err × (σ × List AttemptEvent) :=
  doTxAttempt p.tracedPool env.tracedAttempt (tracedAttemptOp op) opts (st, [])

/-- The callback of a `doTx` attempt run on its own on `sess`, logging its calls,
started with an empty log. -/
def runDoTxCallback {σ : Type} (env : TxEnv σ) (op : TxOperation σ) (opts : DoTxOptions)
    (sess : Session) (st : σ) : Option Err × (σ × List TxEvent) :=
  doTxCallback env.traced (tracedOp op) opts sess (st, [])

/-- The event that ends a `With` whose callback returned `res` on session `s`: deletion
when the error is classified as making the session unusable, return to the idle set
with status Ready otherwise. -/
def releaseEvent {σ : Type} (p : SlotPool σ) (s : Session) (res : Option Err) :
    AttemptEvent :=
  match res with
  | some err =>
    if p.mustDelete err then AttemptEvent.delete s
    else AttemptEvent.putIdle { s with status := SessionStatus.Ready }
  | none => AttemptEvent.putIdle { s with status := SessionStatus.Ready }

/-! ## The session pool of the client -/

/-- Fields of the query configuration (`config.Config` of `internal/query/config`, declared
outside the sources) that `New` reads: the pool capacity, a count, and the session
creation timeout. -/
structure Config where
  PoolMaxSize : Nat
  CreateSessionTimeout : Nat
  deriving DecidableEq, Repr

/-- Modelled from the spec: the type `pool.Pool` of the missing package `internal/pool`.
The configuration is what `pool.New` receives: the capacity, the create function, the
close function and the classifier of errors that make a resource unusable.  The state is
the one the spec lists: the idle resources, and the resources checked out or under
construction, counted separately here; `closed` is set by `Close`. -/
structure SessionPool (σ : Type) where
  capacity : Nat
  create : (Session → σ → σ) → σ → (Option Session × Option Err) × σ
  close : Session → σ → Option Err × σ
  mustDelete : Err → Bool
  idle : List Session
  inUse : Nat
  underConstruction : Nat
  closed : Bool

/-- Modelled from the spec: `pool.New` of the missing package `internal/pool`: a pool
with the given configuration, no resource and not closed. -/
def SessionPool.New {σ : Type} (capacity : Nat)
    (create : (Session → σ → σ) → σ → (Option Session × Option Err) × σ)
    (close : Session → σ → Option Err × σ) (mustDelete : Err → Bool) : SessionPool σ :=
  { capacity := capacity, create := create, close := close, mustDelete := mustDelete,
    idle := [], inUse := 0, underConstruction := 0, closed := false }

/-- The struct `Client` (client.go:29-32). -/
structure Client (σ : Type) where
  grpcClient : QueryEnv σ
  pool : SessionPool σ

/-- The function `New` (client.go:232-277).  `grpcClient` is the query service client
built on the balancer, `MustDeleteSession` is `xerrors.MustDeleteSession`, declared
outside the sources, and `ctxErr` is what `ctx.Err()` returns.  The timeouts of the two
closures act on the context, which the collaborators hide. -/
def New {σ : Type} (ctxErr : Option Err) (grpcClient : QueryEnv σ)
    (MustDeleteSession : Err → Bool) (config : Config) : Client σ × Option Err :=
  ({ grpcClient := grpcClient
     pool := SessionPool.New config.PoolMaxSize
       (fun onClose st =>
         match createSession grpcClient { onAttach := none, onClose := some onClose } st with
         | ((_, some err), st1) => ((none, some (Err.withStackTrace err)), st1)
         | ((s, none), st1) => ((s, none), st1))
       (fun s st =>
         match deleteSession grpcClient s.id st with
         | (some err, st1) => (some (Err.withStackTrace err), st1)
         | (none, st1) => (none, st1))
       MustDeleteSession },
    ctxErr)

/-- Number of live sessions of a pool: idle, in use or under construction. -/
def SessionPool.live {σ : Type} (p : SessionPool σ) : Nat :=
  p.idle.length + p.inUse + p.underConstruction

/-- Modelled from the spec: the steps at which concurrent `With` calls, the background
monitors and `Close` touch the bookkeeping of the pool, which the spec guards by one
synchronization primitive, so that each step is atomic. -/
inductive PoolAction where
  | acquire
  | created
  | createFailed
  | release (s : Session)
  | delete
  | evict (s : Session)
  | close
  deriving DecidableEq, Repr

/-- Modelled from the spec: one atomic step of the pool of the missing package
`internal/pool`.  `acquire`: a `With` call asks for a slot: "if an idle resource exists,
reuse it; else if under capacity, construct one; else block" (no change).  `created` and
`createFailed`: a construction ends, with a resource that is now in use or with an error
("no resource is consumed").  `release` and `delete`: the function of a `With` call has
returned and the resource goes back to the idle set, or is destroyed when the pool is
closed or the error makes it unusable.  `evict`: the close hook of an idle session runs
from its monitor and de-registers it.  `close`: `Close` stops acquisitions and deletes
the idle resources.  A step that is not enabled changes nothing. -/
def SessionPool.step {σ : Type} (p : SessionPool σ) : PoolAction → SessionPool σ
  | .acquire =>
    if p.closed then p
    else
      match p.idle with
      | _ :: rest => { p with idle := rest, inUse := p.inUse + 1 }
      | [] =>
        if p.live < p.capacity then { p with underConstruction := p.underConstruction + 1 }
        else p
  | .created =>
    if 0 < p.underConstruction then
      { p with underConstruction := p.underConstruction - 1, inUse := p.inUse + 1 }
    else p
  | .createFailed =>
    if 0 < p.underConstruction then { p with underConstruction := p.underConstruction - 1 }
    else p
  | .release s =>
    if 0 < p.inUse then
      if p.closed then { p with inUse := p.inUse - 1 }
      else { p with inUse := p.inUse - 1, idle := s :: p.idle }
    else p
  | .delete => if 0 < p.inUse then { p with inUse := p.inUse - 1 } else p
  | .evict s => { p with idle := p.idle.erase s }
  | .close => { p with closed := true, idle := [] }

/-- The pool after a sequence of atomic steps, in the order in which they happen. -/
def SessionPool.run {σ : Type} (p : SessionPool σ) (actions : List PoolAction) :
    SessionPool σ :=
  actions.foldl SessionPool.step p

/-! ## The connector of package `ydbsql` (connector.go) -/

/-- Outcome of Go code that can panic: it returns a value or panics with a message. -/
inductive Run (α : Type) where
  | ok (a : α)
  | panic (msg : String)
  deriving DecidableEq, Repr

/-- Run `f` on the value returned, keep a panic. -/
def Run.bind {α β : Type} (r : Run α) (f : α → Run β) : Run β :=
  match r with
  | .ok a => f a
  | .panic msg => .panic msg

/-- The message of the runtime panic raised by a write through a nil pointer. -/
def nilDereference : String := "invalid memory address or nil pointer dereference"

/-- A value of the interface `credentials.Credentials`; `stringer` is what its `String`
method returns when it implements `fmt.Stringer`. -/
structure credentials.Credentials where
  tag : Nat
  stringer : Option String
  deriving DecidableEq, Repr

/-- Fields of the driver configuration `config.Config` that `connector.go` touches;
`Credentials` is an interface value, `none` when nil. -/
structure config.Config where
  Database : String
  Credentials : Option credentials.Credentials
  Trace : Nat
  deriving DecidableEq, Repr

/-- The zero value of `config.Config`, built by `new(config.Config)` and by
`&config.Config{}`. -/
def config.Config.zero : config.Config := { Database := "", Credentials := none, Trace := 0 }

/-- A `tls.Config` as `connector.go` builds it, `&tls.Config{}`. -/
structure tls.Config where
  deriving DecidableEq, Repr

/-- Fields of `dial.Dialer`: the two pointers `connector.go` touches (`none` when nil)
and `rest`, which stands for its other fields. -/
structure dial.Dialer where
  DriverConfig : Option config.Config
  TLSConfig : Option tls.Config
  rest : Nat
  deriving DecidableEq, Repr

/-- What `connector.go` reads of `ydb.ConnectParams`. -/
structure ydb.ConnectParams where
  Endpoint : String
  Database : String
  UseTLS : Bool
  deriving DecidableEq, Repr

/-- Handle of the cluster a successful `Dial` returns. -/
structure Cluster where
  handle : Nat
  deriving DecidableEq, Repr

/-- Handle of a table client used as a pool (`internal.ClientAsPool`). -/
structure ClientAsPool where
  handle : Nat
  deriving DecidableEq, Repr

/-- Handle of a table session returned by `pool.Create`. -/
structure TableSession where
  handle : Nat
  deriving DecidableEq, Repr

/-- Handle of a `table.TransactionControl`. -/
structure TransactionControl where
  handle : Nat
  deriving DecidableEq, Repr

/-- The struct `connector` (connector.go:132-146) without its mutex and channel. -/
structure connector where
  dialer : dial.Dialer
  endpoint : String
  trace : Nat
  pool : Option ClientAsPool
  defaultTxControl : Option TransactionControl
  dataOpts : List Nat
  scanOpts : List Nat
  deriving DecidableEq, Repr

/-- The type `ConnectorOption`, `func(*connector)`: the connector after the call, or a
panic. -/
abbrev ConnectorOption := connector → Run connector

/-- The option `WithDialer` (connector.go:25-32). -/
def WithDialer (d : dial.Dialer) : ConnectorOption := fun c =>
  let c := { c with dialer := d }
  if c.dialer.DriverConfig = none then
    .ok { c with dialer := { c.dialer with DriverConfig := some config.Config.zero } }
  else .ok c

/-- The option `withClient` (connector.go:34-38), not exported. -/
def withClient (pool : Option ClientAsPool) : ConnectorOption := fun c =>
  .ok { c with pool := pool }

/-- The option `WithConnectParams` (connector.go:40-53). -/
def WithConnectParams (params : ydb.ConnectParams) : ConnectorOption := fun c =>
  let c := { c with endpoint := params.Endpoint }
  let c :=
    if c.dialer.DriverConfig = none then
      { c with dialer := { c.dialer with DriverConfig := some config.Config.zero } }
    else c
  match c.dialer.DriverConfig with
  | none => .panic nilDereference
  | some driverConfig =>
    let dialer : dial.Dialer :=
      { c.dialer with DriverConfig := some { driverConfig with Database := params.Database } }
    if params.UseTLS then .ok { c with dialer := { dialer with TLSConfig := some {} } }
    else .ok { c with dialer := { dialer with TLSConfig := none } }

/-- The option `WithConnectionString` (connector.go:55-57).  `MustConnectionString` is
`ydb.MustConnectionString`, declared outside the sources; it returns the parameters or
panics, before any option is built. -/
def WithConnectionString (MustConnectionString : String → Run ydb.ConnectParams)
    (connection : String) : Run ConnectorOption :=
  (MustConnectionString connection).bind fun params => .ok (WithConnectParams params)

/-- The option `WithEndpoint` (connector.go:59-63). -/
def WithEndpoint (addr : String) : ConnectorOption := fun c =>
  .ok { c with endpoint := addr }

/-- The option `WithDriverConfig` (connector.go:65-69): a write through the pointer
`c.dialer.DriverConfig`. -/
def WithDriverConfig (config : config.Config) : ConnectorOption := fun c =>
  match c.dialer.DriverConfig with
  | none => .panic nilDereference
  | some _ => .ok { c with dialer := { c.dialer with DriverConfig := some config } }

/-- The option `WithCredentials` (connector.go:71-75). -/
def WithCredentials (creds : Option credentials.Credentials) : ConnectorOption := fun c =>
  match c.dialer.DriverConfig with
  | none => .panic nilDereference
  | some driverConfig =>
    .ok { c with dialer :=
            { c.dialer with DriverConfig := some { driverConfig with Credentials := creds } } }

/-- The option `WithDatabase` (connector.go:77-81). -/
def WithDatabase (db : String) : ConnectorOption := fun c =>
  match c.dialer.DriverConfig with
  | none => .panic nilDereference
  | some driverConfig =>
    .ok { c with dialer :=
            { c.dialer with DriverConfig := some { driverConfig with Database := db } } }

/-- The option `WithTraceDriver` (connector.go:83-87). -/
def WithTraceDriver (t : Nat) : ConnectorOption := fun c =>
  match c.dialer.DriverConfig with
  | none => .panic nilDereference
  | some driverConfig =>
    .ok { c with dialer :=
            { c.dialer with DriverConfig := some { driverConfig with Trace := t } } }

/-- The option `WithTrace` (connector.go:89-93). -/
def WithTrace (t : Nat) : ConnectorOption := fun c => .ok { c with trace := t }

/-- The option `WithDefaultTxControl` (connector.go:95-99). -/
def WithDefaultTxControl (txControl : Option TransactionControl) : ConnectorOption := fun c =>
  .ok { c with defaultTxControl := txControl }

/-- The option `WithDefaultExecDataQueryOption` (connector.go:101-105). -/
def WithDefaultExecDataQueryOption (opts : List Nat) : ConnectorOption := fun c =>
  .ok { c with dataOpts := c.dataOpts ++ opts }

/-- The option `WithDefaultExecScanQueryOption` (connector.go:107-111). -/
def WithDefaultExecScanQueryOption (opts : List Nat) : ConnectorOption := fun c =>
  .ok { c with scanOpts := c.scanOpts ++ opts }

/-- The options a caller outside the package can build: the results of the exported
constructors (`WithConnectionString` returns a `WithConnectParams` option). -/
inductive ExportedOption : ConnectorOption → Prop where
  | WithDialer (d : dial.Dialer) : ExportedOption (WithDialer d)
  | WithConnectParams (params : ydb.ConnectParams) : ExportedOption (WithConnectParams params)
  | WithEndpoint (addr : String) : ExportedOption (WithEndpoint addr)
  | WithDriverConfig (config : config.Config) : ExportedOption (WithDriverConfig config)
  | WithCredentials (creds : Option credentials.Credentials) :
      ExportedOption (WithCredentials creds)
  | WithDatabase (db : String) : ExportedOption (WithDatabase db)
  | WithTraceDriver (t : Nat) : ExportedOption (WithTraceDriver t)
  | WithTrace (t : Nat) : ExportedOption (WithTrace t)
  | WithDefaultTxControl (txControl : Option TransactionControl) :
      ExportedOption (WithDefaultTxControl txControl)
  | WithDefaultExecDataQueryOption (opts : List Nat) :
      ExportedOption (WithDefaultExecDataQueryOption opts)
  | WithDefaultExecScanQueryOption (opts : List Nat) :
      ExportedOption (WithDefaultExecScanQueryOption opts)

/-- The loop of `Connector` (connector.go:125-127): the options are applied in order. -/
def applyOptions : List ConnectorOption → connector → Run connector
  | [], c => .ok c
  | opt :: opts, c => (opt c).bind (applyOptions opts)

/-- The function `Connector` (connector.go:113-129).  `configNew` is the configuration
`config.New()` points to and `txControl` the default transaction control, both built
outside the sources. -/
def Connector (configNew : config.Config) (txControl : TransactionControl)
    (opts : List ConnectorOption) : Run connector :=
  applyOptions opts
    { dialer := { DriverConfig := some configNew, TLSConfig := none, rest := 0 },
      endpoint := "", trace := 0, pool := none, defaultTxControl := some txControl,
      dataOpts := [], scanOpts := [] }

/-- An error value of package `ydbsql`: one built by `fmt.Errorf` with the verb `%w`,
which wraps `wrapped`, or an error of a collaborator passed on as it is. -/
inductive SqlError where
  | Errorf (format : String) (wrapped : Err) (args : List String)
  | passed (err : Err)
  deriving DecidableEq, Repr

/-- The error an error value wraps (`errors.Unwrap`). -/
def SqlError.Unwrap : SqlError → Option Err
  | .Errorf _ wrapped _ => some wrapped
  | .passed _ => none

/-- Collaborators of the connector: `Dial` of the dialer, `internal.NewClientAsPool` on
the table configuration of the context, and `Create` of the pool. -/
structure DialEnv where
  Dial : dial.Dialer → String → Except Err Cluster
  NewClientAsPool : Cluster → ClientAsPool
  Create : ClientAsPool → Option TableSession × Option Err

/-- The method `connector.dial` (connector.go:167-185).  The receiver is a connector, so
the test `c == nil` on line 170 is false. -/
def connector.dial (env : DialEnv) (c : connector) :
    Run (Option ClientAsPool × Option SqlError) :=
  match env.Dial c.dialer c.endpoint with
  | .error err =>
    match c.dialer.DriverConfig with
    | none => .panic "nil driver config"
    | some driverConfig =>
      match driverConfig.Credentials with
      | none => .panic "nil credentials"
      | some creds =>
        match creds.stringer with
        | some str =>
          .ok (none, some (SqlError.Errorf "dial error: %w (credentials: %s)" err [str]))
        | none => .ok (none, some (SqlError.Errorf "dial error: %w" err []))
  | .ok d => .ok (some (env.NewClientAsPool d), none)

/-- The method `connector.init` (connector.go:148-165): the connector after the call and
the error returned. -/
def connector.init (env : DialEnv) (c : connector) : Run (connector × Option SqlError) :=
  match c.pool with
  | none => (c.dial env).bind fun r => .ok ({ c with pool := r.1 }, r.2)
  | some _ => .ok (c, none)

/-- The struct `sqlConn` as `Connect` builds it. -/
structure sqlConn where
  connector : connector
  session : TableSession
  deriving DecidableEq, Repr

/-- The method `connector.Connect` (connector.go:187-202): the connector after the call,
the connection and the error. -/
def connector.Connect (env : DialEnv) (c : connector) :
    Run (connector × (Option sqlConn × Option SqlError)) :=
  (c.init env).bind fun r =>
    match r.2 with
    | some err => .ok (r.1, (none, some err))
    | none =>
      match r.1.pool with
      | none => .panic nilDereference
      | some pool =>
        match env.Create pool with
        | (_, some err) => .ok (r.1, (none, some (SqlError.passed err)))
        | (none, none) => .panic "ydbsql: abnormal result of pool.Create()"
        | (some s, none) => .ok (r.1, (some { connector := r.1, session := s }, none))

/-! ## User operations that panic -/

/-- The type `query.Operation` for user code that can panic: the operation returns its
error or panics, and the world is the one it has reached. -/
abbrev OperationMayPanic (σ : Type) := Session → σ → Run (Option Err) × σ

/-- The type `query.TxOperation` for user code that can panic. -/
abbrev TxOperationMayPanic (σ : Type) := Transaction → σ → Run (Option Err) × σ

/-- A user operation that returns, as an operation that can panic. -/
def returning {σ : Type} (op : TxOperation σ) : TxOperationMayPanic σ :=
  fun tx st => (Run.ok (op tx st).1, (op tx st).2)

/-- The operation `doTx` hands to `do` (client.go:74-99) for a user operation that can
panic.  The closure defers nothing and recovers nothing, so a panic of `op` on line 79
unwinds it there: lines 80-98 are not run. -/
def doTxOperationMayPanic {σ : Type} (env : TxEnv σ) (op : TxOperationMayPanic σ)
    (opts : DoTxOptions) : OperationMayPanic σ :=
  fun s st =>
    match env.Begin s opts.TxSettings st with
    | (.error err, st1) => (Run.ok (some (Err.withStackTrace err)), st1)
    | (.ok tx, st1) =>
      match op tx st1 with
      | (.panic msg, st2) => (Run.panic msg, st2)
      | (.ok (some err), st2) =>
        match env.Rollback tx st2 with
        | (some errRollback, st3) =>
          (Run.ok (some (Err.withStackTrace (Err.join err errRollback))), st3)
        | (none, st3) => (Run.ok (some (Err.withStackTrace err)), st3)
      | (.ok none, st2) =>
        match env.CommitTx tx st2 with
        | (some err, st3) =>
          match env.Rollback tx st3 with
          | (some errRollback, st4) =>
            (Run.ok (some (Err.withStackTrace (Err.join err errRollback))), st4)
          | (none, st4) => (Run.ok (some (Err.withStackTrace err)), st4)
        | (none, st3) => (Run.ok none, st3)

/-- The callback `do` passes to `pool.With` (client.go:45-52) for an operation that can
panic: the closure recovers nothing, so a panic of `op` on line 46 unwinds it. -/
def doCallbackMayPanic {σ : Type} (op : OperationMayPanic σ) :
    Session → σ → Run (Option Err) × σ :=
  fun s st =>
    match op s st with
    | (.panic msg, st1) => (Run.panic msg, st1)
    | (.ok (some err), st1) => (Run.ok (some (Err.withStackTrace err)), st1)
    | (.ok none, st1) => (Run.ok none, st1)

/-- The callback a `doTx` attempt runs inside `pool.With`, for a user operation that can
panic. -/
def doTxCallbackMayPanic {σ : Type} (env : TxEnv σ) (op : TxOperationMayPanic σ)
    (opts : DoTxOptions) : Session → σ → Run (Option Err) × σ :=
  doCallbackMayPanic (doTxOperationMayPanic env op opts)

/-- The same user operation, logging its invocation when it returns; a call that panics
returns nothing and adds nothing to the log of returned calls. -/
def tracedOpMayPanic {σ : Type} (op : TxOperationMayPanic σ) :
    TxOperationMayPanic (σ × List TxEvent) :=
  fun tx w =>
    match (op tx w.1).1 with
    | .ok res => (Run.ok res, ((op tx w.1).2, w.2 ++ [TxEvent.op tx res]))
    | .panic msg => (Run.panic msg, ((op tx w.1).2, w.2))

/-! ## Example worlds -/

/-- A session as the pool hands it out. -/
def sampleSession : Session :=
  { id := "s-1", nodeID := 7, status := SessionStatus.InUse,
    close := some { attach := { handle := 1 }, done := false } }

/-- Options with an empty retry configuration and transaction mode 2. -/
def sampleOpts : DoTxOptions :=
  { Label := "", Idempotent := false, RetryOptions := [], TxSettings := { mode := 2 } }

/-- A scripted transaction environment over the trivial world: `Begin` opens transaction 5
or fails, `CommitTx` and `Rollback` return the given results. -/
def scriptedTx (begin : Option Err) (commit rollback : Option Err) : TxEnv Unit where
  Begin := fun _ _ st =>
    match begin with
    | some e => (Except.error e, st)
    | none => (Except.ok { handle := 5 }, st)
  CommitTx := fun _ st => (commit, st)
  Rollback := fun _ st => (rollback, st)

/-- A user operation that returns the given result. -/
def scriptedOp (res : Option Err) : TxOperation Unit := fun _ st => (res, st)

/-- A scripted query service.  The world is the list of results the attach stream has
still to deliver; `Recv` takes the first one and fails with error 9 once the list is
empty.  `CreateSession`, `AttachSession` and `DeleteSession` return the given results;
an opened stream has handle 1. -/
def scriptedQuery (create : Except Err CreateSessionResponse) (attach : Option Err)
    (delete : Except Err DeleteSessionResponse) :
    QueryEnv (List (Except Err SessionState)) where
  CreateSession := fun st => (create, st)
  DeleteSession := fun _ st => (delete, st)
  AttachSession := fun _ st =>
    match attach with
    | some e => (Except.error e, st)
    | none => (Except.ok { handle := 1 }, st)
  Recv := fun _ st =>
    match st with
    | [] => (Except.error (Err.raw 9), [])
    | r :: rest => (r, rest)
  CloseSend := fun _ st => (none, st)
  cancelAttach := fun st => st

/-- A successful answer of `CreateSession`: session "s-1" on node 7. -/
def createdOk : Except Err CreateSessionResponse :=
  Except.ok { status := StatusIds_SUCCESS, sessionId := "s-1", nodeId := 7 }

/-- A `DeleteSession` that fails with error 8. -/
def deleteFails : Except Err DeleteSessionResponse := Except.error (Err.raw 8)

/-- A success message of the attach stream. -/
def okState : SessionState := { status := StatusIds_SUCCESS }

/-- Both hooks supplied; they leave the world alone. -/
def bothHooks : createSessionConfig (List (Except Err SessionState)) where
  onAttach := some fun _ st => st
  onClose := some fun _ st => st

/-- The session `createSession` builds from `createdOk`. -/
def builtSession : Session :=
  { id := "s-1", nodeID := 7, status := SessionStatus.Ready,
    close := some { attach := { handle := 1 }, done := false } }

/-- A parser of caller options for the examples: every caller option is a retry option
and is kept in order, the label is "tx-label" and the flag is the given one. -/
def sampleNewDoOptions (idempotent : Bool) (opts : List RetryOption) : DoOptions :=
  { Label := "tx-label", Idempotent := idempotent, RetryOptions := opts }

/-- The same parser for `DoTx`, with transaction mode 2. -/
def sampleNewDoTxOptions (idempotent : Bool) (opts : List RetryOption) : DoTxOptions :=
  { toDoOptions := sampleNewDoOptions idempotent opts, TxSettings := { mode := 2 } }

/-- A pool of the spec over the trivial world: acquisition returns the given result,
every error makes the session unusable. -/
def scriptedSlots (acquired : Except Err Session) : SlotPool Unit where
  acquire := fun st => (acquired, st)
  mustDelete := fun _ => true
  delete := fun _ st => st
  putIdle := fun _ st => st

/-- A default driver configuration that holds credentials. -/
def sampleConfigNew : config.Config :=
  { Database := "", Credentials := some { tag := 1, stringer := some "anonymous" }, Trace := 0 }

/-- A driver configuration of a caller that names a database and no credentials. -/
def configWithoutCredentials : config.Config :=
  { Database := "/local", Credentials := none, Trace := 0 }

/-- Collaborators whose `Dial` always fails with error 1. -/
def failingDial : DialEnv where
  Dial := fun _ _ => Except.error (Err.raw 1)
  NewClientAsPool := fun d => { handle := d.handle }
  Create := fun _ => (some { handle := 1 }, none)

/-- A user operation that panics with the message "boom". -/
def panickingOp : TxOperationMayPanic Unit := fun _ st => (Run.panic "boom", st)

/-! ## Lemmas on errors -/

theorem Err.stack_size (k : Nat) (e : Err) : (Err.stack k e).size = e.size + k := by
  induction k with
  | zero => rfl
  | succ k ih => simp [Err.stack, Err.size, ih]; omega

theorem Err.stack_add (k j : Nat) (e : Err) :
    Err.stack (k + j) e = Err.stack k (Err.stack j e) := by
  induction k with
  | zero => simp [Err.stack]
  | succ k ih => rw [Nat.succ_add]; simp [Err.stack, ih]

theorem Err.stack_cancel (k : Nat) (a b : Err) (h : Err.stack k a = Err.stack k b) : a = b := by
  induction k with
  | zero => exact h
  | succ k ih => exact ih (by simpa [Err.stack] using h)

theorem Err.Wraps.refl (e : Err) : Err.Wraps e e := ⟨0, rfl⟩

theorem Err.Wraps.withStackTrace {r e : Err} (h : Err.Wraps r e) :
    Err.Wraps (Err.withStackTrace r) e := by
  obtain ⟨k, hk⟩ := h
  exact ⟨k + 1, by simp [Err.stack, hk]⟩

theorem Err.Wraps.trans {a b c : Err} (hab : Err.Wraps a b) (hbc : Err.Wraps b c) :
    Err.Wraps a c := by
  obtain ⟨k, hk⟩ := hab
  obtain ⟨j, hj⟩ := hbc
  exact ⟨k + j, by rw [Err.stack_add, ← hj, hk]⟩

/-- An error that is `e` under stack traces is not a join of `e` with anything. -/
theorem Err.Wraps.not_join {r e : Err} (h : Err.Wraps r e) (x : Err) :
    ¬ Err.Wraps r (Err.join e x) := by
  rintro ⟨m, hm⟩
  obtain ⟨k, hk⟩ := h
  have hsize := congrArg Err.size (hk.symm.trans hm)
  simp only [Err.stack_size, Err.size] at hsize
  have hkm : k = m + (k - m) := by omega
  have heq : Err.stack k e = Err.stack m (Err.join e x) := hk.symm.trans hm
  rw [hkm, Err.stack_add] at heq
  have hcancel := Err.stack_cancel m _ _ heq
  have hpos : k - m = (k - m - 1) + 1 := by omega
  rw [hpos] at hcancel
  simp [Err.stack] at hcancel

theorem SameOutcome.of_some {r : Option Err} {e : Err} (h : SameOutcome r (some e)) :
    ∃ r1, r = some r1 ∧ Err.Wraps r1 e := by
  cases r with
  | none => exact absurd h (by simp [SameOutcome])
  | some r1 => exact ⟨r1, rfl, h⟩

theorem SameOutcome.of_none {r : Option Err} (h : SameOutcome r none) : r = none := by
  cases r with
  | none => rfl
  | some r1 => exact absurd h (by simp [SameOutcome])

theorem SameOutcome.none_iff {r e : Option Err} (h : SameOutcome r e) :
    r = none ↔ e = none := by
  cases r <;> cases e <;> simp_all [SameOutcome]

/-! ## Lemmas on `do` -/

/-- One attempt of `do` returns the outcome of the operation run on the acquired session,
up to stack traces. -/
theorem doAttempt_outcome {σ : Type} (pool : Pool σ) (op : Operation σ) (w0 w1 : σ)
    (sess : Session) (hPool : pool.RunsCallback w0 sess w1) :
    SameOutcome (doAttempt pool op w0).1 (op sess w1).1 := by
  have h := hPool (doCallback op)
  unfold doAttempt
  unfold doCallback at h
  rcases hop : op sess w1 with ⟨_ | e, st1⟩
  · rw [hop] at h
    have hnone := SameOutcome.of_none h
    rcases hw : pool.With (doCallback op) w0 with ⟨_ | r, st2⟩
    · simp [SameOutcome]
    · unfold doCallback at hw; rw [hw] at hnone; simp at hnone
  · rw [hop] at h
    obtain ⟨r1, hr1, hwr⟩ := SameOutcome.of_some h
    rcases hw : pool.With (doCallback op) w0 with ⟨_ | r, st2⟩
    · unfold doCallback at hw; rw [hw] at hr1; simp at hr1
    · unfold doCallback at hw
      rw [hw] at hr1
      simp only [Option.some.injEq] at hr1
      subst hr1
      exact (hwr.trans (Err.Wraps.refl e).withStackTrace).withStackTrace

theorem Pool.direct_runsCallback {σ : Type} (sess : Session) (w : σ) :
    (Pool.direct sess : Pool σ).RunsCallback w sess w := by
  intro f
  rcases h : (f sess w).1 with _ | e
  · simp [Pool.direct, h, SameOutcome]
  · simp [Pool.direct, h, SameOutcome, Err.Wraps.refl]

/-! ## Transactions -/

/-- C1. In an attempt of `DoTx` whose `Begin` succeeded and whose `Rollback` failed with
`eR`, after the user operation failed with `e` or after `CommitTx` failed with `e`, the
attempt returns an error that is `Join(e, eR)` under stack traces only: both errors are
the two constituents of the join. -/
theorem doTx_failed_rollback_is_joined {σ : Type} (pool : Pool σ) (env : TxEnv σ)
    (op : TxOperation σ) (opts : DoTxOptions) (sess : Session) (w0 st1 st2 : σ)
    (tx : Transaction) (e eR : Err)
    (hPool : pool.RunsCallback w0 sess st1)
    (hBegin : env.Begin sess opts.TxSettings st1 = (Except.ok tx, st2))
    (hFail :
      (∃ st3, op tx st2 = (some e, st3) ∧ (env.Rollback tx st3).1 = some eR) ∨
      (∃ st3 st4, op tx st2 = (none, st3) ∧ env.CommitTx tx st3 = (some e, st4) ∧
        (env.Rollback tx st4).1 = some eR)) :
    ∃ r, (doTxAttempt pool env op opts w0).1 = some r ∧ Err.Wraps r (Err.join e eR) := by
  have hout := doAttempt_outcome pool (doTxOperation env op opts) w0 st1 sess hPool
  have hres : (doTxOperation env op opts sess st1).1
      = some (Err.withStackTrace (Err.join e eR)) := by
    rcases hFail with ⟨st3, hOp, hRb⟩ | ⟨st3, st4, hOp, hCommit, hRb⟩
    · rcases hr : env.Rollback tx st3 with ⟨r, st4⟩
      rw [hr] at hRb
      simp only at hRb
      subst hRb
      simp [doTxOperation, hBegin, hOp, hr]
    · rcases hr : env.Rollback tx st4 with ⟨r, st5⟩
      rw [hr] at hRb
      simp only at hRb
      subst hRb
      simp [doTxOperation, hBegin, hOp, hCommit, hr]
  rw [hres] at hout
  obtain ⟨r, hr, hw⟩ := SameOutcome.of_some hout
  exact ⟨r, hr, hw.trans (Err.Wraps.refl _).withStackTrace⟩

/-- C2. In an attempt of `DoTx` whose `Begin` and user operation succeeded, whose
`CommitTx` failed with `e` and whose `Rollback` then succeeded, the attempt returns an
error that is `e` under stack traces only; it is not a join of `e` with any other
error. -/
theorem doTx_commit_failure_rolled_back {σ : Type} (pool : Pool σ) (env : TxEnv σ)
    (op : TxOperation σ) (opts : DoTxOptions) (sess : Session) (w0 st1 st2 st3 st4 : σ)
    (tx : Transaction) (e : Err)
    (hPool : pool.RunsCallback w0 sess st1)
    (hBegin : env.Begin sess opts.TxSettings st1 = (Except.ok tx, st2))
    (hOp : op tx st2 = (none, st3))
    (hCommit : env.CommitTx tx st3 = (some e, st4))
    (hRollback : (env.Rollback tx st4).1 = none) :
    ∃ r, (doTxAttempt pool env op opts w0).1 = some r ∧ Err.Wraps r e ∧
      ∀ x, ¬ Err.Wraps r (Err.join e x) := by
  have hout := doAttempt_outcome pool (doTxOperation env op opts) w0 st1 sess hPool
  have hres : (doTxOperation env op opts sess st1).1 = some (Err.withStackTrace e) := by
    rcases hr : env.Rollback tx st4 with ⟨r, st5⟩
    rw [hr] at hRollback
    simp only at hRollback
    subst hRollback
    simp [doTxOperation, hBegin, hOp, hCommit, hr]
  rw [hres] at hout
  obtain ⟨r, hr, hw⟩ := SameOutcome.of_some hout
  have hwe : Err.Wraps r e := hw.trans (Err.Wraps.refl _).withStackTrace
  exact ⟨r, hr, hwe, fun x => hwe.not_join x⟩

/-- C3. In an attempt of `DoTx` whose `Begin` succeeded and whose user operation failed
with `e`, the calls the callback issues are exactly `Begin`, the operation and one
`Rollback`, in this order, so `CommitTx` is not called; and when that `Rollback`
succeeded, the attempt returns an error that is `e` under stack traces only, not a join
of `e` with any other error. -/
theorem doTx_operation_failure_rolls_back {σ : Type} (pool : Pool (σ × List TxEvent))
    (env : TxEnv σ) (op : TxOperation σ) (opts : DoTxOptions) (sess : Session)
    (w0 : σ × List TxEvent) (st1 st2 st3 : σ) (tx : Transaction) (e : Err)
    (hPool : pool.RunsCallback w0 sess (st1, []))
    (hBegin : env.Begin sess opts.TxSettings st1 = (Except.ok tx, st2))
    (hOp : op tx st2 = (some e, st3)) :
    (doTxCallback env.traced (tracedOp op) opts sess (st1, [])).2.2
        = [TxEvent.Begin sess opts.TxSettings (Except.ok tx), TxEvent.op tx (some e),
            TxEvent.Rollback tx (env.Rollback tx st3).1] ∧
      ((env.Rollback tx st3).1 = none →
        ∃ r, (doTxAttempt pool env.traced (tracedOp op) opts w0).1 = some r ∧
          Err.Wraps r e ∧ ∀ x, ¬ Err.Wraps r (Err.join e x)) := by
  refine ⟨?_, fun hRb => ?_⟩
  · rcases hr : env.Rollback tx st3 with ⟨_ | r, st4⟩ <;>
      simp [doTxCallback, doCallback, doTxOperation, TxEnv.traced, tracedOp, hBegin, hOp, hr]
  · have hout := doAttempt_outcome pool (doTxOperation env.traced (tracedOp op) opts) w0
      (st1, []) sess hPool
    have hres : (doTxOperation env.traced (tracedOp op) opts sess (st1, [])).1
        = some (Err.withStackTrace e) := by
      simp [doTxOperation, TxEnv.traced, tracedOp, hBegin, hOp, hRb]
    rw [hres] at hout
    obtain ⟨r, hr, hw⟩ := SameOutcome.of_some hout
    have hwe : Err.Wraps r e := hw.trans (Err.Wraps.refl _).withStackTrace
    exact ⟨r, hr, hwe, fun x => hwe.not_join x⟩

/-- A user operation that returns leaves no transaction open: whatever `Begin`, the
operation, `CommitTx` and `Rollback` answer, if `Begin` opened a transaction then either
`CommitTx` has returned success or `Rollback` has been invoked when the callback returns,
and the attempt returns `nil` exactly when `Begin`, the operation and `CommitTx` all
succeeded. -/
theorem doTx_returning_settles {σ : Type} (pool : Pool (σ × List TxEvent))
    (env : TxEnv σ) (op : TxOperation σ) (opts : DoTxOptions) (sess : Session)
    (w0 : σ × List TxEvent) (st1 : σ)
    (hPool : pool.RunsCallback w0 sess (st1, [])) :
    (∀ tx, (env.Begin sess opts.TxSettings st1).1 = Except.ok tx →
      (TxEvent.CommitTx tx none
            ∈ (doTxCallback env.traced (tracedOp op) opts sess (st1, [])).2.2 ∧
          txStateAfter (doTxCallback env.traced (tracedOp op) opts sess (st1, [])).2.2
            = TxState.Committed) ∨
        ((∃ res, TxEvent.Rollback tx res
            ∈ (doTxCallback env.traced (tracedOp op) opts sess (st1, [])).2.2) ∧
          (txStateAfter (doTxCallback env.traced (tracedOp op) opts sess (st1, [])).2.2
              = TxState.RolledBack ∨
            txStateAfter (doTxCallback env.traced (tracedOp op) opts sess (st1, [])).2.2
              = TxState.RollbackFailed))) ∧
      ((doTxAttempt pool env.traced (tracedOp op) opts w0).1 = none ↔
        ∃ tx st2 st3, env.Begin sess opts.TxSettings st1 = (Except.ok tx, st2) ∧
          op tx st2 = (none, st3) ∧ (env.CommitTx tx st3).1 = none) := by
  refine ⟨fun tx hBegin => ?_, ?_⟩
  · rcases hb : env.Begin sess opts.TxSettings st1 with ⟨b, st2⟩
    rw [hb] at hBegin
    simp only at hBegin
    subst hBegin
    rcases ho : op tx st2 with ⟨_ | e, st3⟩
    · rcases hc : env.CommitTx tx st3 with ⟨_ | e, st4⟩
      · left
        simp [doTxCallback, doCallback, doTxOperation, TxEnv.traced, tracedOp, hb, ho, hc,
          txStateAfter, TxState.step]
      · right
        rcases hr : env.Rollback tx st4 with ⟨_ | r, st5⟩ <;>
          simp [doTxCallback, doCallback, doTxOperation, TxEnv.traced, tracedOp, hb, ho, hc,
            hr, txStateAfter, TxState.step]
    · right
      rcases hr : env.Rollback tx st3 with ⟨_ | r, st4⟩ <;>
        simp [doTxCallback, doCallback, doTxOperation, TxEnv.traced, tracedOp, hb, ho, hr,
          txStateAfter, TxState.step]
  · have hout := doAttempt_outcome pool (doTxOperation env.traced (tracedOp op) opts) w0
      (st1, []) sess hPool
    rw [doTxAttempt, hout.none_iff]
    rcases hb : env.Begin sess opts.TxSettings st1 with ⟨_ | tx, st2⟩
    · simp [doTxOperation, TxEnv.traced, hb]
    · rcases ho : op tx st2 with ⟨_ | e, st3⟩
      · rcases hc : env.CommitTx tx st3 with ⟨_ | e, st4⟩
        · simp only [doTxOperation, TxEnv.traced, tracedOp, hb, ho, hc, true_iff]
          exact ⟨tx, st2, st3, rfl, ho, by rw [hc]⟩
        · rcases hr : env.Rollback tx st4 with ⟨_ | r, st5⟩ <;>
            simp [doTxOperation, TxEnv.traced, tracedOp, hb, ho, hc, hr]
      · rcases hr : env.Rollback tx st3 with ⟨_ | r, st4⟩ <;>
          simp [doTxOperation, TxEnv.traced, tracedOp, hb, ho, hr]

/-- C5. In an attempt of `DoTx` whose `Begin` on the acquired session failed with `e`,
the attempt returns an error that is `e` under stack traces only, and the only call the
callback issues is that `Begin`, made with the transaction settings of the options: the
user operation is not run and neither `CommitTx` nor `Rollback` is called. -/
theorem doTx_begin_failure_propagates {σ : Type} (pool : Pool (σ × List TxEvent))
    (env : TxEnv σ) (op : TxOperation σ) (opts : DoTxOptions) (sess : Session)
    (w0 : σ × List TxEvent) (st1 st2 : σ) (e : Err)
    (hPool : pool.RunsCallback w0 sess (st1, []))
    (hBegin : env.Begin sess opts.TxSettings st1 = (Except.error e, st2)) :
    (∃ r, (doTxAttempt pool env.traced (tracedOp op) opts w0).1 = some r ∧ Err.Wraps r e) ∧
      (doTxCallback env.traced (tracedOp op) opts sess (st1, [])).2.2
        = [TxEvent.Begin sess opts.TxSettings (Except.error e)] := by
  refine ⟨?_, ?_⟩
  · have hout := doAttempt_outcome pool (doTxOperation env.traced (tracedOp op) opts) w0
      (st1, []) sess hPool
    have hres : (doTxOperation env.traced (tracedOp op) opts sess (st1, [])).1
        = some (Err.withStackTrace e) := by
      simp [doTxOperation, TxEnv.traced, hBegin]
    rw [hres] at hout
    obtain ⟨r, hr, hw⟩ := SameOutcome.of_some hout
    exact ⟨r, hr, hw.trans (Err.Wraps.refl _).withStackTrace⟩
  · simp [doTxCallback, doCallback, doTxOperation, TxEnv.traced, hBegin]

/-! ### The transaction theorems on scripted worlds -/

/-- Witness of C1: the user operation fails with error 1 and `Rollback` with error 2;
the attempt returns the join of the two under three stack traces. -/
theorem doTx_failed_rollback_is_joined_witness :
    (doTxAttempt (Pool.direct sampleSession) (scriptedTx none none (some (Err.raw 2)))
        (scriptedOp (some (Err.raw 1))) sampleOpts ()).1
      = some (Err.stack 3 (Err.join (Err.raw 1) (Err.raw 2))) ∧
    ∃ r, (doTxAttempt (Pool.direct sampleSession) (scriptedTx none none (some (Err.raw 2)))
        (scriptedOp (some (Err.raw 1))) sampleOpts ()).1 = some r ∧
      Err.Wraps r (Err.join (Err.raw 1) (Err.raw 2)) :=
  ⟨rfl,
    doTx_failed_rollback_is_joined (Pool.direct sampleSession)
      (scriptedTx none none (some (Err.raw 2))) (scriptedOp (some (Err.raw 1))) sampleOpts
      sampleSession () () () { handle := 5 } (Err.raw 1) (Err.raw 2)
      (Pool.direct_runsCallback sampleSession ()) rfl (Or.inl ⟨(), rfl, rfl⟩)⟩

/-- Witness of C2: `CommitTx` fails with error 3 and `Rollback` succeeds; the attempt
returns error 3 under three stack traces. -/
theorem doTx_commit_failure_rolled_back_witness :
    (doTxAttempt (Pool.direct sampleSession) (scriptedTx none (some (Err.raw 3)) none)
        (scriptedOp none) sampleOpts ()).1 = some (Err.stack 3 (Err.raw 3)) ∧
    ∃ r, (doTxAttempt (Pool.direct sampleSession) (scriptedTx none (some (Err.raw 3)) none)
        (scriptedOp none) sampleOpts ()).1 = some r ∧ Err.Wraps r (Err.raw 3) ∧
      ∀ x, ¬ Err.Wraps r (Err.join (Err.raw 3) x) :=
  ⟨rfl,
    doTx_commit_failure_rolled_back (Pool.direct sampleSession)
      (scriptedTx none (some (Err.raw 3)) none) (scriptedOp none) sampleOpts sampleSession
      () () () () () { handle := 5 } (Err.raw 3)
      (Pool.direct_runsCallback sampleSession ()) rfl rfl rfl rfl⟩

/-- Witness of C3: the user operation fails with error 1 and `Rollback` succeeds. -/
theorem doTx_operation_failure_rolls_back_witness :
    (doTxCallback (scriptedTx none none none).traced (tracedOp (scriptedOp (some (Err.raw 1))))
        sampleOpts sampleSession ((), [])).2.2
      = [TxEvent.Begin sampleSession sampleOpts.TxSettings (Except.ok { handle := 5 }),
          TxEvent.op { handle := 5 } (some (Err.raw 1)),
          TxEvent.Rollback { handle := 5 }
            ((scriptedTx none none none).Rollback { handle := 5 } ()).1] ∧
      (((scriptedTx none none none).Rollback { handle := 5 } ()).1 = none →
        ∃ r, (doTxAttempt (Pool.direct sampleSession) (scriptedTx none none none).traced
            (tracedOp (scriptedOp (some (Err.raw 1)))) sampleOpts ((), [])).1 = some r ∧
          Err.Wraps r (Err.raw 1) ∧ ∀ x, ¬ Err.Wraps r (Err.join (Err.raw 1) x)) :=
  doTx_operation_failure_rolls_back (Pool.direct sampleSession) (scriptedTx none none none)
    (scriptedOp (some (Err.raw 1))) sampleOpts sampleSession ((), []) () () ()
    { handle := 5 } (Err.raw 1) (Pool.direct_runsCallback sampleSession ((), [])) rfl rfl

/-- Witness of C5: `Begin` fails with error 4. -/
theorem doTx_begin_failure_propagates_witness :
    (∃ r, (doTxAttempt (Pool.direct sampleSession)
          (scriptedTx (some (Err.raw 4)) none none).traced (tracedOp (scriptedOp none))
          sampleOpts ((), [])).1 = some r ∧ Err.Wraps r (Err.raw 4)) ∧
      (doTxCallback (scriptedTx (some (Err.raw 4)) none none).traced (tracedOp (scriptedOp none))
          sampleOpts sampleSession ((), [])).2.2
        = [TxEvent.Begin sampleSession sampleOpts.TxSettings (Except.error (Err.raw 4))] :=
  doTx_begin_failure_propagates (Pool.direct sampleSession)
    (scriptedTx (some (Err.raw 4)) none none) (scriptedOp none) sampleOpts sampleSession
    ((), []) () () (Err.raw 4) (Pool.direct_runsCallback sampleSession ((), [])) rfl

/-! ## Session creation -/

@[simp]
theorem QueryEnv.traced_CreateSession {σ : Type} (env : QueryEnv σ) (w : σ × List QueryEvent) :
    env.traced.CreateSession w
      = ((env.CreateSession w.1).1,
          ((env.CreateSession w.1).2, w.2 ++ [QueryEvent.CreateSession])) := rfl

@[simp]
theorem QueryEnv.traced_DeleteSession {σ : Type} (env : QueryEnv σ) (id : String)
    (w : σ × List QueryEvent) :
    env.traced.DeleteSession id w
      = ((env.DeleteSession id w.1).1,
          ((env.DeleteSession id w.1).2, w.2 ++ [QueryEvent.DeleteSession id])) := rfl

@[simp]
theorem QueryEnv.traced_AttachSession {σ : Type} (env : QueryEnv σ) (id : String)
    (w : σ × List QueryEvent) :
    env.traced.AttachSession id w
      = ((env.AttachSession id w.1).1,
          ((env.AttachSession id w.1).2, w.2 ++ [QueryEvent.AttachSession id])) := rfl

@[simp]
theorem QueryEnv.traced_Recv {σ : Type} (env : QueryEnv σ) (a : AttachStream)
    (w : σ × List QueryEvent) :
    env.traced.Recv a w
      = ((env.Recv a w.1).1, ((env.Recv a w.1).2, w.2 ++ [QueryEvent.Recv a])) := rfl

@[simp]
theorem QueryEnv.traced_CloseSend {σ : Type} (env : QueryEnv σ) (a : AttachStream)
    (w : σ × List QueryEvent) :
    env.traced.CloseSend a w
      = ((env.CloseSend a w.1).1, ((env.CloseSend a w.1).2, w.2 ++ [QueryEvent.CloseSend a])) :=
  rfl

@[simp]
theorem QueryEnv.traced_cancelAttach {σ : Type} (env : QueryEnv σ) (w : σ × List QueryEvent) :
    env.traced.cancelAttach w = (env.cancelAttach w.1, w.2 ++ [QueryEvent.cancelAttach]) := rfl

theorem deleteSession_traced_log {σ : Type} (env : QueryEnv σ) (id : String)
    (w : σ × List QueryEvent) :
    (deleteSession env.traced id w).2.2 = w.2 ++ [QueryEvent.DeleteSession id] := by
  unfold deleteSession
  rcases h : env.DeleteSession id w.1 with ⟨_ | response, st1⟩
  · simp [h]
  · by_cases hs : response.status = StatusIds_SUCCESS <;> simp [h, hs]

/-- The log of the deferred functions of `createSession` when it returns an error. -/
theorem createSessionDeferred_traced_log {σ : Type} (env : QueryEnv σ) (id : String)
    (attach : Option AttachStream) (err : Err) (w : σ × List QueryEvent) :
    (createSessionDeferred env.traced id attach (some err) w).2
      = w.2 ++ (attach.toList.map QueryEvent.CloseSend) ++
          [QueryEvent.cancelAttach, QueryEvent.DeleteSession id] := by
  cases attach <;> simp [createSessionDeferred, deleteSession_traced_log]

/-- C6. When `CreateSession` succeeded with status SUCCESS and then opening the attach
stream fails, or the first `Recv` fails, or the first message has a non-success status,
`createSession` returns a nil session and the error of the attach step (a transport
error for the two failures, an operation error for the status), it has issued
`DeleteSession` exactly once, for the created session ID, and it has cancelled the
attach context.  The environment is arbitrary, so this holds whatever `DeleteSession`
answers. -/
theorem createSession_attach_failure_deletes {σ : Type} (env : QueryEnv σ)
    (cfg : createSessionConfig σ) (st st1 : σ) (resp : CreateSessionResponse)
    (attachErr : Err)
    (hCreate : env.CreateSession st = (Except.ok resp, st1))
    (hStatus : resp.status = StatusIds_SUCCESS)
    (hAttach :
      (∃ e, (env.AttachSession resp.sessionId st1).1 = Except.error e ∧
        attachErr = Err.withStackTrace (Err.transport e)) ∨
      (∃ attach st2 e, env.AttachSession resp.sessionId st1 = (Except.ok attach, st2) ∧
        (env.Recv attach st2).1 = Except.error e ∧
        attachErr = Err.withStackTrace (Err.transport e)) ∨
      (∃ attach st2 state, env.AttachSession resp.sessionId st1 = (Except.ok attach, st2) ∧
        (env.Recv attach st2).1 = Except.ok state ∧ state.status ≠ StatusIds_SUCCESS ∧
        attachErr = Err.withStackTrace (Err.fromOperation state.status))) :
    (createSession env.traced cfg.traced (st, [])).1 = (none, some attachErr) ∧
      (createSession env.traced cfg.traced (st, [])).2.2.filter QueryEvent.isDeleteSession
        = [QueryEvent.DeleteSession resp.sessionId] ∧
      QueryEvent.cancelAttach ∈ (createSession env.traced cfg.traced (st, [])).2.2 := by
  rcases hAttach with ⟨e, hA, rfl⟩ | ⟨attach, st2, e, hA, hR, rfl⟩ |
      ⟨attach, st2, state, hA, hR, hS, rfl⟩
  · rcases ha : env.AttachSession resp.sessionId st1 with ⟨r, st2⟩
    rw [ha] at hA
    simp only at hA
    subst hA
    simp [createSession, hCreate, hStatus, ha, createSessionDeferred_traced_log,
      QueryEvent.isDeleteSession, List.filter]
  · rcases hr : env.Recv attach st2 with ⟨r, st3⟩
    rw [hr] at hR
    simp only at hR
    subst hR
    simp [createSession, hCreate, hStatus, hA, hr, createSessionDeferred_traced_log,
      QueryEvent.isDeleteSession, List.filter]
  · rcases hr : env.Recv attach st2 with ⟨r, st3⟩
    rw [hr] at hR
    simp only at hR
    subst hR
    simp [createSession, hCreate, hStatus, hA, hr, hS, createSessionDeferred_traced_log,
      QueryEvent.isDeleteSession, List.filter]

/-- C7. When the `CreateSession` RPC fails or answers with a non-success status,
`createSession` returns a nil session and an error, a transport error for the RPC
failure and an operation error for the status, and `CreateSession` is the only call it
has issued: neither `DeleteSession` nor `AttachSession` is issued. -/
theorem createSession_create_failure {σ : Type} (env : QueryEnv σ)
    (cfg : createSessionConfig σ) (st : σ) (createErr : Err)
    (hFail :
      (∃ e, (env.CreateSession st).1 = Except.error e ∧
        createErr = Err.withStackTrace (Err.transport e)) ∨
      (∃ resp, (env.CreateSession st).1 = Except.ok resp ∧
        resp.status ≠ StatusIds_SUCCESS ∧
        createErr = Err.withStackTrace (Err.fromOperation resp.status))) :
    (createSession env.traced cfg.traced (st, [])).1 = (none, some createErr) ∧
      (createSession env.traced cfg.traced (st, [])).2.2 = [QueryEvent.CreateSession] := by
  rcases hc : env.CreateSession st with ⟨r, st1⟩
  rw [hc] at hFail
  rcases hFail with ⟨e, hE, rfl⟩ | ⟨resp, hE, hS, rfl⟩
  · simp only at hE
    subst hE
    simp [createSession, hc]
  · simp only at hE
    subst hE
    simp [createSession, hc, hS]

/-- C8. `createSession` returns a non-nil session with a nil error exactly when
`CreateSession` succeeded with status SUCCESS, the attach stream opened and its first
message was received with status SUCCESS.  The returned session then has status Ready
and the ID and node ID of the `CreateSession` answer, a supplied `onAttach` hook has been
called exactly once, with that session (whose `close` was not yet assigned), and
`DeleteSession` was not issued.  When no session is returned the `onAttach` hook has not
been called. -/
theorem createSession_session_iff {σ : Type} (env : QueryEnv σ)
    (cfg : createSessionConfig σ) (st : σ) :
    ((∃ session, (createSession env.traced cfg.traced (st, [])).1 = (some session, none)) ↔
      ∃ resp st1 attach st2 state,
        env.CreateSession st = (Except.ok resp, st1) ∧ resp.status = StatusIds_SUCCESS ∧
          env.AttachSession resp.sessionId st1 = (Except.ok attach, st2) ∧
          (env.Recv attach st2).1 = Except.ok state ∧ state.status = StatusIds_SUCCESS) ∧
      (∀ session, (createSession env.traced cfg.traced (st, [])).1.1 = some session →
        (createSession env.traced cfg.traced (st, [])).1.2 = none ∧
          session.status = SessionStatus.Ready ∧
          (∃ resp, (env.CreateSession st).1 = Except.ok resp ∧
            session.id = resp.sessionId ∧ session.nodeID = resp.nodeId) ∧
          (cfg.onAttach ≠ none →
            (createSession env.traced cfg.traced (st, [])).2.2.filter QueryEvent.isOnAttach
              = [QueryEvent.onAttach { session with close := none }]) ∧
          (createSession env.traced cfg.traced (st, [])).2.2.filter
              QueryEvent.isDeleteSession = []) ∧
      ((createSession env.traced cfg.traced (st, [])).1.1 = none →
        (createSession env.traced cfg.traced (st, [])).2.2.filter QueryEvent.isOnAttach = []) := by
  rcases hc : env.CreateSession st with ⟨_ | resp, st1⟩
  · simp [createSession, hc]
    rfl
  · by_cases hS : resp.status = StatusIds_SUCCESS
    swap
    · simp [createSession, hc, hS]
      rfl
    · rcases ha : env.AttachSession resp.sessionId st1 with ⟨_ | attach, st2⟩
      · simp [createSession, hc, hS, ha, createSessionDeferred_traced_log,
          QueryEvent.isOnAttach, List.filter]
      · rcases hr : env.Recv attach st2 with ⟨_ | state, st3⟩
        · simp [createSession, hc, hS, ha, hr, createSessionDeferred_traced_log,
            QueryEvent.isOnAttach, List.filter]
        · by_cases hM : state.status = StatusIds_SUCCESS
          swap
          · simp [createSession, hc, hS, ha, hr, hM, createSessionDeferred_traced_log,
              QueryEvent.isOnAttach, List.filter]
          · cases hh : cfg.onAttach <;>
              simp [createSession, hc, hS, ha, hr, hM, hh, createSessionDeferred,
                createSessionConfig.traced, QueryEvent.isOnAttach,
                QueryEvent.isDeleteSession, List.filter] <;>
            exact ⟨resp, st1, ⟨rfl, rfl⟩, hS, attach, st2, ha, state, by rw [hr], hM⟩

/-! ## Close and the monitor -/

/-- A session returned by `createSession` is Ready and its `close` has not run. -/
theorem createSession_built {σ : Type} (env : QueryEnv σ) (cfg : createSessionConfig σ)
    (st : σ) (session : Session) (h : (createSession env cfg st).1.1 = some session) :
    session.status = SessionStatus.Ready ∧
      ∃ attach, session.close = some { attach := attach, done := false } := by
  unfold createSession at h
  rcases hc : env.CreateSession st with ⟨_ | resp, st1⟩
  · simp [hc] at h
  · by_cases hS : resp.status = StatusIds_SUCCESS
    swap
    · simp [hc, hS] at h
    · rcases ha : env.AttachSession resp.sessionId st1 with ⟨_ | attach, st2⟩
      · simp [hc, hS, ha] at h
      · rcases hr : env.Recv attach st2 with ⟨_ | state, st3⟩
        · simp [hc, hS, ha, hr] at h
        · by_cases hM : state.status = StatusIds_SUCCESS
          swap
          · simp [hc, hS, ha, hr, hM] at h
          · simp [hc, hS, ha, hr, hM] at h
            subst h
            exact ⟨rfl, attach, rfl⟩

/-- The first invocation of `session.close` in the logging world. -/
theorem invokeClose_traced_first {σ : Type} (env : QueryEnv σ) (cfg : createSessionConfig σ)
    (session : Session) (attach : AttachStream)
    (hClose : session.close = some { attach := attach, done := false })
    (st : σ) (log : List QueryEvent) :
    ∃ st1, Session.invokeClose env.traced cfg.traced session (st, log)
      = some ({ session with status := SessionStatus.Closed,
                             close := some { attach := attach, done := true } },
          (st1, log ++ closeEvents cfg session attach)) := by
  cases hh : cfg.onClose <;>
    simp [Session.invokeClose, hClose, createSessionConfig.traced, hh, closeEvents]

/-- Invoking a `close` that has already run changes nothing. -/
theorem closeTimes_done {σ : Type} (env : QueryEnv σ) (cfg : createSessionConfig σ)
    (n : Nat) (session : Session) (attach : AttachStream)
    (hClose : session.close = some { attach := attach, done := true }) (st : σ) :
    closeTimes env cfg n session st = some (session, st) := by
  induction n with
  | zero => rfl
  | succ n ih => simp [closeTimes, Session.invokeClose, hClose, ih]

theorem filter_isOnClose_closeEvents {σ : Type} (cfg : createSessionConfig σ)
    (session : Session) (attach : AttachStream) (h : cfg.onClose ≠ none) :
    (closeEvents cfg session attach).filter QueryEvent.isOnClose
      = [QueryEvent.onClose session] := by
  cases hh : cfg.onClose with
  | none => exact absurd hh h
  | some hook => simp [closeEvents, hh, QueryEvent.isOnClose, List.filter]

theorem filter_isCloseSend_closeEvents {σ : Type} (cfg : createSessionConfig σ)
    (session : Session) (attach : AttachStream) :
    (closeEvents cfg session attach).filter QueryEvent.isCloseSend
      = [QueryEvent.CloseSend attach] := by
  cases hh : cfg.onClose <;> simp [closeEvents, hh, QueryEvent.isCloseSend, List.filter]

/-- C9. The close action of a session built by `createSession` is one-shot.  Take such a
session in any status and invoke `close` `n ≥ 1` times: the invocations return, the
status is then Closed, and the calls issued by all `n` invocations together are those of
a single run of the closure, so a supplied `onClose` hook is called exactly once, the
send side of the attach stream is closed exactly once and the attach context is
cancelled; the outcome is the same as that of a single invocation. -/
theorem session_close_one_shot {σ : Type} (env : QueryEnv σ) (cfg : createSessionConfig σ)
    (st0 : σ) (s0 : Session) (hBuilt : (createSession env cfg st0).1.1 = some s0)
    (status : SessionStatus) (st : σ) (n : Nat) (hn : 1 ≤ n) :
    ∃ attach s1 st1 log,
      s0.close = some { attach := attach, done := false } ∧
      closeTimes env.traced cfg.traced n { s0 with status := status } (st, [])
        = some (s1, (st1, log)) ∧
      s1.status = SessionStatus.Closed ∧
      log = closeEvents cfg { s0 with status := status } attach ∧
      (cfg.onClose ≠ none →
        log.filter QueryEvent.isOnClose = [QueryEvent.onClose { s0 with status := status }]) ∧
      log.filter QueryEvent.isCloseSend = [QueryEvent.CloseSend attach] ∧
      QueryEvent.cancelAttach ∈ log ∧
      closeTimes env.traced cfg.traced n { s0 with status := status } (st, [])
        = closeTimes env.traced cfg.traced 1 { s0 with status := status } (st, []) := by
  obtain ⟨_, attach, hClose⟩ := createSession_built env cfg st0 s0 hBuilt
  have hClose1 : ({ s0 with status := status } : Session).close
      = some { attach := attach, done := false } := hClose
  obtain ⟨st1, hfirst⟩ :=
    invokeClose_traced_first env cfg { s0 with status := status } attach hClose1 st []
  obtain ⟨m, rfl⟩ : ∃ m, n = m + 1 := ⟨n - 1, by omega⟩
  have hn1 : closeTimes env.traced cfg.traced (m + 1) { s0 with status := status } (st, [])
      = some ({ s0 with status := SessionStatus.Closed,
                        close := some { attach := attach, done := true } },
          (st1, closeEvents cfg { s0 with status := status } attach)) := by
    simp only [closeTimes, hfirst, List.nil_append]
    exact closeTimes_done env.traced cfg.traced m _ attach rfl _
  have h1 : closeTimes env.traced cfg.traced 1 { s0 with status := status } (st, [])
      = some ({ s0 with status := SessionStatus.Closed,
                        close := some { attach := attach, done := true } },
          (st1, closeEvents cfg { s0 with status := status } attach)) := by
    simp only [closeTimes, hfirst, List.nil_append]
  refine ⟨attach, _, st1, _, hClose, hn1, rfl, rfl, ?_, ?_, ?_, ?_⟩
  · exact fun h => filter_isOnClose_closeEvents cfg _ attach h
  · exact filter_isCloseSend_closeEvents cfg _ attach
  · simp [closeEvents]
  · rw [hn1, h1]

/-- The monitor loop does not read when the status is neither Ready nor InUse. -/
theorem monitorLoop_not_live {σ : Type} (env : QueryEnv σ) (attach : AttachStream)
    (fuel : Nat) (session : Session) (st : σ)
    (h : ¬ (session.status = SessionStatus.Ready ∨ session.status = SessionStatus.InUse)) :
    monitorLoop env attach (fuel + 1) session st = some st := by
  rcases session with ⟨id, node, status, close⟩
  cases status <;> simp_all [monitorLoop, Session.Status]

/-- While the status is Ready or InUse the monitor loop reads the stream up to and
including the first message that is not a success, or the error that ends the stream. -/
theorem monitorLoop_traced_live {σ : Type} (env : QueryEnv σ) (attach : AttachStream)
    (session : Session)
    (hLive : session.status = SessionStatus.Ready ∨ session.status = SessionStatus.InUse)
    (e : Err) (msgs : List SessionState) :
    ∀ (st : σ) (log : List QueryEvent) (fuel : Nat), env.Delivers attach msgs e st →
      msgs.length < fuel →
      ∃ st1, monitorLoop env.traced attach fuel session (st, log)
        = some (st1, log ++ List.replicate (readsUntilStop msgs) (QueryEvent.Recv attach)) := by
  have hstep : ∀ (fuel : Nat) (w : σ × List QueryEvent),
      monitorLoop env.traced attach (fuel + 1) session w
        = match env.traced.Recv attach w with
          | (.error _, st1) => some st1
          | (.ok sessionState, st1) =>
            if sessionState.status ≠ StatusIds_SUCCESS then some st1
            else monitorLoop env.traced attach fuel session st1 := by
    intro fuel w
    rcases session with ⟨id, node, status, close⟩
    rcases hLive with h | h <;> simp only at h <;> subst h <;>
      rcases hrecv : env.Recv attach w.1 with ⟨_ | m, st1⟩ <;>
      simp [monitorLoop, Session.Status, hrecv]
  induction msgs with
  | nil =>
    intro st log fuel hDel hFuel
    obtain ⟨f, rfl⟩ : ∃ f, fuel = f + 1 := ⟨fuel - 1, by simp at hFuel; omega⟩
    simp only [QueryEnv.Delivers] at hDel
    rw [hstep]
    simp [hDel, readsUntilStop]
  | cons m ms ih =>
    intro st log fuel hDel hFuel
    obtain ⟨f, rfl⟩ : ∃ f, fuel = f + 1 := ⟨fuel - 1, by simp at hFuel; omega⟩
    simp only [QueryEnv.Delivers] at hDel
    obtain ⟨hm, hrest⟩ := hDel
    rw [hstep]
    by_cases hS : m.status = StatusIds_SUCCESS
    · obtain ⟨st1, h1⟩ := ih (env.Recv attach st).2 (log ++ [QueryEvent.Recv attach]) f hrest
        (by simp at hFuel; omega)
      refine ⟨st1, ?_⟩
      simp only [QueryEnv.traced_Recv, hm, hS, ne_eq, not_true_eq_false, if_false, h1]
      simp [readsUntilStop, hS, List.replicate_succ]
    · simp [hm, hS, readsUntilStop]

theorem filter_isRecv_closeEvents {σ : Type} (cfg : createSessionConfig σ)
    (session : Session) (attach : AttachStream) :
    (closeEvents cfg session attach).filter QueryEvent.isRecv = [] := by
  cases hh : cfg.onClose <;> simp [closeEvents, hh, QueryEvent.isRecv, List.filter]

theorem filter_isRecv_replicate (k : Nat) (attach : AttachStream) :
    (List.replicate k (QueryEvent.Recv attach)).filter QueryEvent.isRecv
      = List.replicate k (QueryEvent.Recv attach) := by
  induction k with
  | zero => rfl
  | succ k ih => simp [List.replicate_succ, List.filter, QueryEvent.isRecv, ih]

theorem filter_isOnClose_replicate (k : Nat) (attach : AttachStream) :
    (List.replicate k (QueryEvent.Recv attach)).filter QueryEvent.isOnClose = [] := by
  induction k with
  | zero => rfl
  | succ k ih => simp [List.replicate_succ, List.filter, QueryEvent.isOnClose, ih]

/-- C10. Take a session built by `createSession`, in any status, whose attach stream
delivers the messages `msgs` and then fails a `Recv`.  With more iterations allowed than
there are messages, the monitor returns.  When it starts outside Ready and InUse it reads
nothing; otherwise it reads the leading success messages and the message or error that
follows them, and nothing after that.  Its log is those reads followed by one run of the
close closure: on exit the status is Closed and a supplied `onClose` hook has been
called exactly once. -/
theorem monitor_terminates_closed {σ : Type} (env : QueryEnv σ) (cfg : createSessionConfig σ)
    (st0 : σ) (s0 : Session) (hBuilt : (createSession env cfg st0).1.1 = some s0)
    (status : SessionStatus) (msgs : List SessionState) (e : Err) (st : σ)
    (hDelivers : ∀ attach, s0.close = some { attach := attach, done := false } →
      env.Delivers attach msgs e st)
    (fuel : Nat) (hFuel : msgs.length < fuel) :
    ∃ attach s1 st1 log,
      s0.close = some { attach := attach, done := false } ∧
      monitor env.traced cfg.traced attach fuel { s0 with status := status } (st, [])
        = some (s1, (st1, log)) ∧
      s1.status = SessionStatus.Closed ∧
      log = List.replicate
              (if status = SessionStatus.Ready ∨ status = SessionStatus.InUse
                then readsUntilStop msgs else 0) (QueryEvent.Recv attach)
            ++ closeEvents cfg { s0 with status := status } attach ∧
      (log.filter QueryEvent.isRecv).length
        = (if status = SessionStatus.Ready ∨ status = SessionStatus.InUse
            then readsUntilStop msgs else 0) ∧
      (cfg.onClose ≠ none →
        log.filter QueryEvent.isOnClose
          = [QueryEvent.onClose { s0 with status := status }]) := by
  obtain ⟨_, attach, hStream⟩ := createSession_built env cfg st0 s0 hBuilt
  have hDel := hDelivers attach hStream
  have hClose1 : ({ s0 with status := status } : Session).close
      = some { attach := attach, done := false } := hStream
  have hloop : ∃ st1, monitorLoop env.traced attach fuel { s0 with status := status } (st, [])
      = some (st1, List.replicate
              (if status = SessionStatus.Ready ∨ status = SessionStatus.InUse
                then readsUntilStop msgs else 0) (QueryEvent.Recv attach)) := by
    by_cases hLive : status = SessionStatus.Ready ∨ status = SessionStatus.InUse
    · obtain ⟨st1, h1⟩ := monitorLoop_traced_live env attach { s0 with status := status }
        hLive e msgs st [] fuel hDel hFuel
      exact ⟨st1, by simpa [hLive] using h1⟩
    · obtain ⟨f, rfl⟩ : ∃ f, fuel = f + 1 := ⟨fuel - 1, by omega⟩
      exact ⟨st, by
        rw [monitorLoop_not_live env.traced attach f { s0 with status := status } (st, []) hLive]
        simp [hLive]⟩
  obtain ⟨st1, h1⟩ := hloop
  obtain ⟨st2, h2⟩ := invokeClose_traced_first env cfg { s0 with status := status } attach
    hClose1 st1 (List.replicate
      (if status = SessionStatus.Ready ∨ status = SessionStatus.InUse
        then readsUntilStop msgs else 0) (QueryEvent.Recv attach))
  refine ⟨attach,
    ({ s0 with status := SessionStatus.Closed,
               close := some { attach := attach, done := true } } : Session),
    st2, _, hStream, ?_, rfl, rfl, ?_, ?_⟩
  · simp only [monitor, h1, h2]
  · simp [List.filter_append, filter_isRecv_replicate, filter_isRecv_closeEvents]
  · intro h
    simp [List.filter_append, filter_isOnClose_replicate,
      filter_isOnClose_closeEvents cfg _ attach h]

/-! ### The session theorems on a scripted query service -/

/-- Witness of C6: the first attach message has status 5 and `DeleteSession` fails; the
error returned is the operation error of the message, not the delete failure. -/
theorem createSession_attach_failure_deletes_witness :
    createSession (scriptedQuery createdOk none deleteFails).traced bothHooks.traced
        ([Except.ok { status := 5 }], [])
      = ((none, some (Err.withStackTrace (Err.fromOperation 5))),
          ([], [QueryEvent.CreateSession, QueryEvent.AttachSession "s-1",
            QueryEvent.Recv { handle := 1 }, QueryEvent.CloseSend { handle := 1 },
            QueryEvent.cancelAttach, QueryEvent.DeleteSession "s-1"])) ∧
    ((createSession (scriptedQuery createdOk none deleteFails).traced bothHooks.traced
          ([Except.ok { status := 5 }], [])).1
        = (none, some (Err.withStackTrace (Err.fromOperation 5))) ∧
      (createSession (scriptedQuery createdOk none deleteFails).traced bothHooks.traced
          ([Except.ok { status := 5 }], [])).2.2.filter QueryEvent.isDeleteSession
        = [QueryEvent.DeleteSession "s-1"] ∧
      QueryEvent.cancelAttach ∈
        (createSession (scriptedQuery createdOk none deleteFails).traced bothHooks.traced
          ([Except.ok { status := 5 }], [])).2.2) :=
  ⟨rfl,
    createSession_attach_failure_deletes (scriptedQuery createdOk none deleteFails) bothHooks
      [Except.ok { status := 5 }] [Except.ok { status := 5 }]
      { status := StatusIds_SUCCESS, sessionId := "s-1", nodeId := 7 }
      (Err.withStackTrace (Err.fromOperation 5)) rfl rfl
      (Or.inr (Or.inr ⟨{ handle := 1 }, [Except.ok { status := 5 }], { status := 5 }, rfl, rfl,
        by decide, rfl⟩))⟩

/-- Witness of C7: `CreateSession` answers with status 5. -/
theorem createSession_create_failure_witness :
    (createSession
        (scriptedQuery (Except.ok { status := 5, sessionId := "s-1", nodeId := 7 }) none
          deleteFails).traced bothHooks.traced ([], [])).1
      = (none, some (Err.withStackTrace (Err.fromOperation 5))) ∧
    (createSession
        (scriptedQuery (Except.ok { status := 5, sessionId := "s-1", nodeId := 7 }) none
          deleteFails).traced bothHooks.traced ([], [])).2.2 = [QueryEvent.CreateSession] :=
  createSession_create_failure
    (scriptedQuery (Except.ok { status := 5, sessionId := "s-1", nodeId := 7 }) none deleteFails)
    bothHooks [] (Err.withStackTrace (Err.fromOperation 5))
    (Or.inr ⟨{ status := 5, sessionId := "s-1", nodeId := 7 }, rfl, by decide, rfl⟩)

/-- Witness of C8: every step succeeds; the built session is returned and `onAttach` has
been called once, before `close` was assigned. -/
theorem createSession_session_iff_witness :
    createSession (scriptedQuery createdOk none deleteFails).traced bothHooks.traced
        ([Except.ok okState], [])
      = ((some builtSession, none),
          ([], [QueryEvent.CreateSession, QueryEvent.AttachSession "s-1",
            QueryEvent.Recv { handle := 1 },
            QueryEvent.onAttach { builtSession with close := none }])) ∧
    ((∃ session,
        (createSession (scriptedQuery createdOk none deleteFails).traced bothHooks.traced
          ([Except.ok okState], [])).1 = (some session, none)) ↔
      ∃ resp st1 attach st2 state,
        (scriptedQuery createdOk none deleteFails).CreateSession [Except.ok okState]
            = (Except.ok resp, st1) ∧
          resp.status = StatusIds_SUCCESS ∧
          (scriptedQuery createdOk none deleteFails).AttachSession resp.sessionId st1
            = (Except.ok attach, st2) ∧
          ((scriptedQuery createdOk none deleteFails).Recv attach st2).1 = Except.ok state ∧
          state.status = StatusIds_SUCCESS) :=
  ⟨rfl,
    (createSession_session_iff (scriptedQuery createdOk none deleteFails) bothHooks
      [Except.ok okState]).1⟩

/-- Witness of C9: three invocations of `close` on the built session, now InUse. -/
theorem session_close_one_shot_witness :
    closeTimes (scriptedQuery createdOk none deleteFails).traced bothHooks.traced 3
        { builtSession with status := SessionStatus.InUse } ([], [])
      = some ({ builtSession with status := SessionStatus.Closed,
                                  close := some { attach := { handle := 1 }, done := true } },
          ([], [QueryEvent.onClose { builtSession with status := SessionStatus.InUse },
            QueryEvent.CloseSend { handle := 1 }, QueryEvent.cancelAttach])) ∧
    ∃ attach s1 st1 log,
      builtSession.close = some { attach := attach, done := false } ∧
      closeTimes (scriptedQuery createdOk none deleteFails).traced bothHooks.traced 3
          { builtSession with status := SessionStatus.InUse } ([], [])
        = some (s1, (st1, log)) ∧
      s1.status = SessionStatus.Closed ∧
      log = closeEvents bothHooks { builtSession with status := SessionStatus.InUse } attach ∧
      (bothHooks.onClose ≠ none →
        log.filter QueryEvent.isOnClose
          = [QueryEvent.onClose { builtSession with status := SessionStatus.InUse }]) ∧
      log.filter QueryEvent.isCloseSend = [QueryEvent.CloseSend attach] ∧
      QueryEvent.cancelAttach ∈ log ∧
      closeTimes (scriptedQuery createdOk none deleteFails).traced bothHooks.traced 3
          { builtSession with status := SessionStatus.InUse } ([], [])
        = closeTimes (scriptedQuery createdOk none deleteFails).traced bothHooks.traced 1
          { builtSession with status := SessionStatus.InUse } ([], []) :=
  ⟨rfl,
    session_close_one_shot (scriptedQuery createdOk none deleteFails) bothHooks
      [Except.ok okState] builtSession rfl SessionStatus.InUse [] 3 (by decide)⟩

/-- Witness of C10: the stream delivers two success messages, a message of status 5 and
one more success message before it fails; the monitor of the InUse session reads three
times and closes. -/
theorem monitor_terminates_closed_witness :
    monitor (scriptedQuery createdOk none deleteFails).traced bothHooks.traced { handle := 1 } 5
        { builtSession with status := SessionStatus.InUse }
        ([Except.ok okState, Except.ok okState, Except.ok { status := 5 }, Except.ok okState], [])
      = some ({ builtSession with status := SessionStatus.Closed,
                                  close := some { attach := { handle := 1 }, done := true } },
          ([Except.ok okState],
            [QueryEvent.Recv { handle := 1 }, QueryEvent.Recv { handle := 1 },
              QueryEvent.Recv { handle := 1 },
              QueryEvent.onClose { builtSession with status := SessionStatus.InUse },
              QueryEvent.CloseSend { handle := 1 }, QueryEvent.cancelAttach])) ∧
    ∃ attach s1 st1 log,
      builtSession.close = some { attach := attach, done := false } ∧
      monitor (scriptedQuery createdOk none deleteFails).traced bothHooks.traced attach 5
          { builtSession with status := SessionStatus.InUse }
          ([Except.ok okState, Except.ok okState, Except.ok { status := 5 }, Except.ok okState],
            [])
        = some (s1, (st1, log)) ∧
      s1.status = SessionStatus.Closed ∧
      log = List.replicate
              (if SessionStatus.InUse = SessionStatus.Ready ∨
                  SessionStatus.InUse = SessionStatus.InUse
                then readsUntilStop [okState, okState, { status := 5 }, okState] else 0)
              (QueryEvent.Recv attach)
            ++ closeEvents bothHooks { builtSession with status := SessionStatus.InUse } attach ∧
      (log.filter QueryEvent.isRecv).length
        = (if SessionStatus.InUse = SessionStatus.Ready ∨
              SessionStatus.InUse = SessionStatus.InUse
            then readsUntilStop [okState, okState, { status := 5 }, okState] else 0) ∧
      (bothHooks.onClose ≠ none →
        log.filter QueryEvent.isOnClose
          = [QueryEvent.onClose { builtSession with status := SessionStatus.InUse }]) :=
  ⟨rfl,
    monitor_terminates_closed (scriptedQuery createdOk none deleteFails) bothHooks
      [Except.ok okState] builtSession rfl SessionStatus.InUse
      [okState, okState, { status := 5 }, okState] (Err.raw 9)
      [Except.ok okState, Except.ok okState, Except.ok { status := 5 }, Except.ok okState]
      (fun _ _ => ⟨rfl, rfl, rfl, rfl, rfl⟩) 5 (by decide)⟩

/-! ## Retry options -/

/-- C13. `Do` and `DoTx` hand to the retry executor the attempt together with the retry
options of the caller in their order, followed by a label option exactly when the label
is not empty, followed by an idempotent option exactly when the idempotent flag is set;
both build this list by the same rule from the parsed label, flag and retry options. -/
theorem Do_DoTx_present_retry_options {σ δ : Type} (Retry : RetryExecutor σ)
    (NewDoOptions : List δ → DoOptions) (NewDoTxOptions : List δ → DoTxOptions)
    (pool : Pool σ) (env : TxEnv σ) (op : Operation σ) (txOp : TxOperation σ)
    (opts : List δ) :
    Client.Do Retry NewDoOptions pool op opts
        = Retry (doAttempt pool op) (presentedRetryOptions (NewDoOptions opts)) ∧
      Client.DoTx Retry NewDoTxOptions pool env txOp opts
        = Retry (doTxAttempt pool env txOp (NewDoTxOptions opts))
            (presentedRetryOptions (NewDoTxOptions opts).toDoOptions) := by
  constructor
  · rcases hO : NewDoOptions opts with ⟨label, idem, ropts⟩
    by_cases hL : label = "" <;> cases idem <;>
      simp [Client.Do, do_, presentedRetryOptions, hO, hL]
  · rcases hO : NewDoTxOptions opts with ⟨⟨label, idem, ropts⟩, settings⟩
    by_cases hL : label = "" <;> cases idem <;>
      simp [Client.DoTx, doTx, do_, doTxAttempt, presentedRetryOptions, hO, hL] <;>
      rfl

/-- Witness of C13: with the flag set and two retry options of the caller, the recording
executor receives the two options, the label option and the idempotent option from both
`Do` and `DoTx`; with the flag unset it receives no idempotent option. -/
theorem Do_DoTx_present_retry_options_witness :
    (Client.Do recordingRetry (sampleNewDoOptions true) (Pool.direct sampleSession)
        (fun _ st => (none, st)) [RetryOption.caller 1, RetryOption.caller 2] []).2
      = [RetryOption.caller 1, RetryOption.caller 2, RetryOption.WithLabel "tx-label",
          RetryOption.WithIdempotent true] ∧
    (Client.DoTx recordingRetry (sampleNewDoTxOptions false) (Pool.direct sampleSession)
        { Begin := fun _ _ st => (Except.error (Err.raw 1), st),
          CommitTx := fun _ st => (none, st), Rollback := fun _ st => (none, st) }
        (fun _ st => (none, st)) [RetryOption.caller 1, RetryOption.caller 2] []).2
      = [RetryOption.caller 1, RetryOption.caller 2, RetryOption.WithLabel "tx-label"] ∧
    Client.Do recordingRetry (sampleNewDoOptions true) (Pool.direct sampleSession)
        (fun _ st => (none, st)) [RetryOption.caller 1, RetryOption.caller 2]
      = recordingRetry (doAttempt (Pool.direct sampleSession) fun _ st => (none, st))
          (presentedRetryOptions
            (sampleNewDoOptions true [RetryOption.caller 1, RetryOption.caller 2])) :=
  ⟨rfl, rfl,
    (Do_DoTx_present_retry_options recordingRetry (sampleNewDoOptions true)
      (sampleNewDoTxOptions true) (Pool.direct sampleSession)
      { Begin := fun _ _ st => (Except.error (Err.raw 1), st),
        CommitTx := fun _ st => (none, st), Rollback := fun _ st => (none, st) }
      (fun _ st => (none, st)) (fun _ st => (none, st))
      [RetryOption.caller 1, RetryOption.caller 2]).1⟩

/-! ## One `With` per attempt -/

/-- The callback logs the same calls whether they are recorded as transaction events or
as attempt events. -/
theorem doTxCallback_tracedAttempt {σ : Type} (env : TxEnv σ) (op : TxOperation σ)
    (opts : DoTxOptions) (sess : Session) (st : σ) (log : List AttemptEvent) :
    doTxCallback env.tracedAttempt (tracedAttemptOp op) opts sess (st, log)
      = ((runDoTxCallback env op opts sess st).1,
          ((runDoTxCallback env op opts sess st).2.1,
            log ++ (runDoTxCallback env op opts sess st).2.2.map AttemptEvent.tx)) := by
  unfold runDoTxCallback
  rcases hb : env.Begin sess opts.TxSettings st with ⟨_ | tx, st1⟩
  · simp [doTxCallback, doCallback, doTxOperation, TxEnv.tracedAttempt, TxEnv.traced, hb]
  · rcases ho : op tx st1 with ⟨_ | e, st2⟩
    · rcases hc : env.CommitTx tx st2 with ⟨_ | e, st3⟩
      · simp [doTxCallback, doCallback, doTxOperation, TxEnv.tracedAttempt, TxEnv.traced,
          tracedAttemptOp, tracedOp, hb, ho, hc]
      · rcases hr : env.Rollback tx st3 with ⟨_ | r, st4⟩ <;>
          simp [doTxCallback, doCallback, doTxOperation, TxEnv.tracedAttempt, TxEnv.traced,
            tracedAttemptOp, tracedOp, hb, ho, hc, hr]
    · rcases hr : env.Rollback tx st2 with ⟨_ | r, st3⟩ <;>
        simp [doTxCallback, doCallback, doTxOperation, TxEnv.tracedAttempt, TxEnv.traced,
          tracedAttemptOp, tracedOp, hb, ho, hr]

/-- Every `Begin` the callback logs is made on the session the callback was given. -/
theorem runDoTxCallback_begin_session {σ : Type} (env : TxEnv σ) (op : TxOperation σ)
    (opts : DoTxOptions) (sess : Session) (st : σ) (s : Session) (settings : TxSettings)
    (res : Except Err Transaction)
    (h : TxEvent.Begin s settings res ∈ (runDoTxCallback env op opts sess st).2.2) :
    s = sess := by
  unfold runDoTxCallback at h
  rcases hb : env.Begin sess opts.TxSettings st with ⟨_ | tx, st1⟩
  · simp [doTxCallback, doCallback, doTxOperation, TxEnv.traced, hb] at h
    exact h.1
  · rcases ho : op tx st1 with ⟨_ | e, st2⟩
    · rcases hc : env.CommitTx tx st2 with ⟨_ | e, st3⟩
      · simp [doTxCallback, doCallback, doTxOperation, TxEnv.traced, tracedOp, hb, ho, hc] at h
        exact h.1
      · rcases hr : env.Rollback tx st3 with ⟨_ | r, st4⟩ <;>
          simp [doTxCallback, doCallback, doTxOperation, TxEnv.traced, tracedOp, hb, ho, hc,
            hr] at h <;>
          exact h.1
    · rcases hr : env.Rollback tx st2 with ⟨_ | r, st3⟩ <;>
        simp [doTxCallback, doCallback, doTxOperation, TxEnv.traced, tracedOp, hb, ho, hr]
          at h <;>
        exact h.1

/-- C12. One attempt of `DoTx` calls the pool's `With` exactly once.  When the
acquisition inside `With` fails, nothing else is called and the attempt returns the
acquisition error.  When it supplies a session, every call of `Begin`, of the user
operation, of `CommitTx` and of `Rollback` lies between the acquisition and the single
release or deletion that ends `With`, `Begin` is made on the supplied session, the
attempt returns `nil` exactly when the callback does, and otherwise it returns an error
whose whole cause is the error of the callback. -/
theorem doTx_attempt_single_With {σ : Type} (p : SlotPool σ) (env : TxEnv σ)
    (op : TxOperation σ) (opts : DoTxOptions) (st : σ) :
    ((runDoTxAttempt p env op opts st).2.2.filter AttemptEvent.isWith).length = 1 ∧
      (∀ e st1, p.acquire st = (Except.error e, st1) →
        (runDoTxAttempt p env op opts st).2.2
            = [AttemptEvent.With, AttemptEvent.acquire (Except.error e)] ∧
          (runDoTxAttempt p env op opts st).1 = some (Err.withStackTrace e)) ∧
      (∀ sess st1, p.acquire st = (Except.ok sess, st1) →
        (runDoTxAttempt p env op opts st).2.2
            = [AttemptEvent.With, AttemptEvent.acquire (Except.ok sess)] ++
                (runDoTxCallback env op opts { sess with status := SessionStatus.InUse }
                  st1).2.2.map AttemptEvent.tx ++
                [releaseEvent p sess
                  (runDoTxCallback env op opts { sess with status := SessionStatus.InUse }
                    st1).1] ∧
          (∀ s settings res,
            TxEvent.Begin s settings res
                ∈ (runDoTxCallback env op opts { sess with status := SessionStatus.InUse }
                    st1).2.2 →
              s = { sess with status := SessionStatus.InUse }) ∧
          ((runDoTxAttempt p env op opts st).1 = none ↔
            (runDoTxCallback env op opts { sess with status := SessionStatus.InUse } st1).1
              = none) ∧
          (∀ e,
            (runDoTxCallback env op opts { sess with status := SessionStatus.InUse } st1).1
                = some e →
              ∃ r, (runDoTxAttempt p env op opts st).1 = some r ∧ Err.Wraps r e)) := by
  have hcb : ∀ (sess : Session) (st1 : σ) (log : List AttemptEvent),
      doCallback (doTxOperation env.tracedAttempt (tracedAttemptOp op) opts) sess (st1, log)
        = ((runDoTxCallback env op opts sess st1).1,
            ((runDoTxCallback env op opts sess st1).2.1,
              log ++ (runDoTxCallback env op opts sess st1).2.2.map AttemptEvent.tx)) :=
    fun sess st1 log => doTxCallback_tracedAttempt env op opts sess st1 log
  rcases ha : p.acquire st with ⟨e | sess, st1⟩
  · simp [runDoTxAttempt, doTxAttempt, doAttempt, SlotPool.tracedPool, SlotPool.With, ha,
      AttemptEvent.isWith, List.filter]
  · have hbegin := runDoTxCallback_begin_session env op opts
      { sess with status := SessionStatus.InUse } st1
    rcases hr : (runDoTxCallback env op opts { sess with status := SessionStatus.InUse }
        st1).1 with _ | e
    · simp [runDoTxAttempt, doTxAttempt, doAttempt, SlotPool.tracedPool, SlotPool.With, ha,
        hcb, hr, releaseEvent, AttemptEvent.isWith, List.filter, List.filter_append]
      exact fun s settings res h => hbegin s settings res h
    · by_cases hm : p.mustDelete e = true
      · simp [runDoTxAttempt, doTxAttempt, doAttempt, SlotPool.tracedPool, SlotPool.With, ha,
          hcb, hr, hm, releaseEvent, AttemptEvent.isWith, List.filter, List.filter_append]
        exact ⟨fun s settings res h => hbegin s settings res h,
          (Err.Wraps.refl e).withStackTrace⟩
      · simp [runDoTxAttempt, doTxAttempt, doAttempt, SlotPool.tracedPool, SlotPool.With, ha,
          hcb, hr, hm, releaseEvent, AttemptEvent.isWith, List.filter, List.filter_append]
        exact ⟨fun s settings res h => hbegin s settings res h,
          (Err.Wraps.refl e).withStackTrace⟩

/-- Witness of C12: the pool supplies the sample session, the user operation fails with
error 1 and `Rollback` succeeds. -/
theorem doTx_attempt_single_With_witness :
    runDoTxAttempt (scriptedSlots (Except.ok sampleSession)) (scriptedTx none none none)
        (scriptedOp (some (Err.raw 1))) sampleOpts ()
      = (some (Err.stack 3 (Err.raw 1)),
          ((), [AttemptEvent.With, AttemptEvent.acquire (Except.ok sampleSession),
            AttemptEvent.tx (TxEvent.Begin sampleSession sampleOpts.TxSettings
              (Except.ok { handle := 5 })),
            AttemptEvent.tx (TxEvent.op { handle := 5 } (some (Err.raw 1))),
            AttemptEvent.tx (TxEvent.Rollback { handle := 5 } none),
            AttemptEvent.delete sampleSession])) ∧
    runDoTxAttempt (scriptedSlots (Except.error (Err.raw 6))) (scriptedTx none none none)
        (scriptedOp (some (Err.raw 1))) sampleOpts ()
      = (some (Err.withStackTrace (Err.raw 6)),
          ((), [AttemptEvent.With, AttemptEvent.acquire (Except.error (Err.raw 6))])) ∧
    ((runDoTxAttempt (scriptedSlots (Except.ok sampleSession)) (scriptedTx none none none)
        (scriptedOp (some (Err.raw 1))) sampleOpts ()).2.2.filter
          AttemptEvent.isWith).length = 1 :=
  ⟨rfl, rfl,
    (doTx_attempt_single_With (scriptedSlots (Except.ok sampleSession))
      (scriptedTx none none none) (scriptedOp (some (Err.raw 1))) sampleOpts ()).1⟩

/-! ## Capacity of the pool -/

theorem SessionPool.step_capacity {σ : Type} (p : SessionPool σ) (a : PoolAction) :
    (p.step a).capacity = p.capacity := by
  cases a <;> simp only [SessionPool.step] <;> repeat' split
  all_goals rfl

theorem SessionPool.step_live_le {σ : Type} (p : SessionPool σ) (a : PoolAction)
    (h : p.live ≤ p.capacity) : (p.step a).live ≤ p.capacity := by
  cases a with
  | acquire =>
    simp only [SessionPool.step]
    split
    · exact h
    · split
      · rename_i x rest hidle
        simp only [SessionPool.live, hidle, List.length_cons] at h ⊢
        omega
      · split
        · rename_i hidle hlt
          simp only [SessionPool.live, hidle, List.length_nil] at h hlt ⊢
          omega
        · exact h
  | created =>
    simp only [SessionPool.step]
    split
    · simp only [SessionPool.live] at h ⊢
      omega
    · exact h
  | createFailed =>
    simp only [SessionPool.step]
    split
    · simp only [SessionPool.live] at h ⊢
      omega
    · exact h
  | release s =>
    simp only [SessionPool.step]
    split
    · split
      · simp only [SessionPool.live] at h ⊢
        omega
      · simp only [SessionPool.live, List.length_cons] at h ⊢
        omega
    · exact h
  | delete =>
    simp only [SessionPool.step]
    split
    · simp only [SessionPool.live] at h ⊢
      omega
    · exact h
  | evict s =>
    have hle : (p.idle.erase s).length ≤ p.idle.length := List.length_erase_le s p.idle
    simp only [SessionPool.step, SessionPool.live] at h ⊢
    omega
  | close =>
    simp only [SessionPool.step, SessionPool.live, List.length_nil] at h ⊢
    omega

theorem SessionPool.run_invariant {σ : Type} (actions : List PoolAction) :
    ∀ p : SessionPool σ, p.live ≤ p.capacity →
      (p.run actions).live ≤ p.capacity ∧ (p.run actions).capacity = p.capacity := by
  induction actions with
  | nil => exact fun p h => ⟨h, rfl⟩
  | cons a rest ih =>
    intro p h
    have hstep := SessionPool.step_live_le p a h
    have hcap := SessionPool.step_capacity p a
    have := ih (p.step a) (by rw [hcap]; exact hstep)
    simp only [SessionPool.run, List.foldl_cons] at this ⊢
    exact ⟨by rw [← hcap]; exact this.1, by rw [this.2, hcap]⟩

/-- C11. The pool of the client is built by `New` with capacity `config.PoolMaxSize()`,
and after every sequence of atomic pool steps of concurrent `With` calls (acquisitions,
ends of constructions, releases, deletions), of background evictions and of `Close`, and
after every prefix of such a sequence, the number of live sessions (idle, in use or
under construction) is at most that capacity. -/
theorem New_pool_live_le_capacity {σ : Type} (ctxErr : Option Err) (grpcClient : QueryEnv σ)
    (MustDeleteSession : Err → Bool) (config : Config) (actions : List PoolAction)
    (n : Nat) :
    (New ctxErr grpcClient MustDeleteSession config).1.pool.capacity = config.PoolMaxSize ∧
      ((New ctxErr grpcClient MustDeleteSession config).1.pool.run (actions.take n)).live
        ≤ config.PoolMaxSize := by
  refine ⟨rfl, ?_⟩
  exact (SessionPool.run_invariant (actions.take n)
    (New ctxErr grpcClient MustDeleteSession config).1.pool
    (by simp [New, SessionPool.New, SessionPool.live])).1

/-- Witness of C11: with capacity 2, three acquisitions start two constructions and the
third one waits; after a release and a new acquisition two sessions are live. -/
theorem New_pool_live_le_capacity_witness :
    ((New none (scriptedQuery createdOk none deleteFails) (fun _ => true)
          { PoolMaxSize := 2, CreateSessionTimeout := 0 }).1.pool.run
        [PoolAction.acquire, PoolAction.acquire, PoolAction.acquire]).underConstruction = 2 ∧
    ((New none (scriptedQuery createdOk none deleteFails) (fun _ => true)
          { PoolMaxSize := 2, CreateSessionTimeout := 0 }).1.pool.run
        [PoolAction.acquire, PoolAction.acquire, PoolAction.acquire, PoolAction.created,
          PoolAction.created, PoolAction.release builtSession, PoolAction.acquire,
          PoolAction.acquire]).live = 2 ∧
    ((New none (scriptedQuery createdOk none deleteFails) (fun _ => true)
          { PoolMaxSize := 2, CreateSessionTimeout := 0 }).1.pool.run
        ([PoolAction.acquire, PoolAction.acquire, PoolAction.acquire, PoolAction.created,
          PoolAction.created, PoolAction.release builtSession, PoolAction.acquire,
          PoolAction.acquire].take 8)).live ≤ 2 :=
  ⟨rfl, rfl,
    (New_pool_live_le_capacity none (scriptedQuery createdOk none deleteFails) (fun _ => true)
      { PoolMaxSize := 2, CreateSessionTimeout := 0 }
      [PoolAction.acquire, PoolAction.acquire, PoolAction.acquire, PoolAction.created,
        PoolAction.created, PoolAction.release builtSession, PoolAction.acquire,
        PoolAction.acquire] 8).2⟩

/-! ## The connector -/

/-- An exported option applied to a connector with a driver configuration and no pool
returns, and the connector still has a driver configuration and no pool. -/
theorem ExportedOption.preserves {opt : ConnectorOption} (h : ExportedOption opt)
    (c : connector) (hcfg : c.dialer.DriverConfig ≠ none) (hpool : c.pool = none) :
    ∃ c1, opt c = Run.ok c1 ∧ c1.dialer.DriverConfig ≠ none ∧ c1.pool = none := by
  obtain ⟨driverConfig, hd⟩ := Option.ne_none_iff_exists'.mp hcfg
  cases h with
  | WithDialer d =>
    by_cases hnil : d.DriverConfig = none <;> simp [YdbQuery.WithDialer, hnil, hpool]
  | WithConnectParams params =>
    cases hTLS : params.UseTLS <;> simp [YdbQuery.WithConnectParams, hd, hTLS, hpool]
  | WithEndpoint addr => simp [YdbQuery.WithEndpoint, hd, hpool]
  | WithDriverConfig config => simp [YdbQuery.WithDriverConfig, hd, hpool]
  | WithCredentials creds => simp [YdbQuery.WithCredentials, hd, hpool]
  | WithDatabase db => simp [YdbQuery.WithDatabase, hd, hpool]
  | WithTraceDriver t => simp [YdbQuery.WithTraceDriver, hd, hpool]
  | WithTrace t => simp [YdbQuery.WithTrace, hd, hpool]
  | WithDefaultTxControl txControl => simp [YdbQuery.WithDefaultTxControl, hd, hpool]
  | WithDefaultExecDataQueryOption opts =>
    simp [YdbQuery.WithDefaultExecDataQueryOption, hd, hpool]
  | WithDefaultExecScanQueryOption opts =>
    simp [YdbQuery.WithDefaultExecScanQueryOption, hd, hpool]

theorem applyOptions_exported (opts : List ConnectorOption) :
    (∀ o ∈ opts, ExportedOption o) → ∀ c : connector, c.dialer.DriverConfig ≠ none →
      c.pool = none →
      ∃ c1, applyOptions opts c = Run.ok c1 ∧ c1.dialer.DriverConfig ≠ none ∧
        c1.pool = none := by
  induction opts with
  | nil => exact fun _ c hcfg hpool => ⟨c, rfl, hcfg, hpool⟩
  | cons opt rest ih =>
    intro hExp c hcfg hpool
    obtain ⟨c1, hc1, hcfg1, hpool1⟩ :=
      (hExp opt (List.mem_cons_self opt rest)).preserves c hcfg hpool
    obtain ⟨c2, hc2, hcfg2, hpool2⟩ :=
      ih (fun o ho => hExp o (List.mem_cons_of_mem opt ho)) c1 hcfg1 hpool1
    exact ⟨c2, by simp [applyOptions, hc1, Run.bind, hc2], hcfg2, hpool2⟩

/-- C14, as the code behaves.  `Connector` applied to exported options returns a
connector with a driver configuration.  When `Dial` fails with `e` and the driver
configuration holds credentials, `dial` returns a nil pool with an error that wraps `e`,
and `Connect` returns that error and no connection; when the credentials are nil, `dial`
panics with "nil credentials". -/
theorem dial_failure_wraps_or_panics (configNew : config.Config)
    (txControl : TransactionControl) (opts : List ConnectorOption)
    (hExported : ∀ o ∈ opts, ExportedOption o) (env : DialEnv) :
    ∃ c driverConfig,
      Connector configNew txControl opts = Run.ok c ∧
      c.dialer.DriverConfig = some driverConfig ∧
      ∀ e, env.Dial c.dialer c.endpoint = Except.error e →
        (∀ creds, driverConfig.Credentials = some creds →
          ∃ err, c.dial env = Run.ok (none, some err) ∧ err.Unwrap = some e ∧
            c.Connect env = Run.ok (c, (none, some err))) ∧
        (driverConfig.Credentials = none → c.dial env = Run.panic "nil credentials") := by
  obtain ⟨c, hc, hcfg, hpool⟩ := applyOptions_exported opts hExported
    { dialer := { DriverConfig := some configNew, TLSConfig := none, rest := 0 },
      endpoint := "", trace := 0, pool := none, defaultTxControl := some txControl,
      dataOpts := [], scanOpts := [] } (by simp) rfl
  obtain ⟨driverConfig, hd⟩ := Option.ne_none_iff_exists'.mp hcfg
  refine ⟨c, driverConfig, hc, hd, fun e hDial => ⟨fun creds hcreds => ?_, fun hnil => ?_⟩⟩
  · have hpoolc : ({ c with pool := none } : connector) = c := by
      cases c
      simp only at hpool
      subst hpool
      rfl
    cases hs : creds.stringer with
    | none =>
      refine ⟨SqlError.Errorf "dial error: %w" e [], ?_, rfl, ?_⟩
      · simp [connector.dial, hDial, hd, hcreds, hs]
      · simp [connector.Connect, connector.init, connector.dial, hDial, hd, hcreds, hs, hpool,
          Run.bind, hpoolc]
    | some str =>
      refine ⟨SqlError.Errorf "dial error: %w (credentials: %s)" e [str], ?_, rfl, ?_⟩
      · simp [connector.dial, hDial, hd, hcreds, hs]
      · simp [connector.Connect, connector.init, connector.dial, hDial, hd, hcreds, hs, hpool,
          Run.bind, hpoolc]
  · simp [connector.dial, hDial, hd, hnil]

/-- C14 fails as stated: the connector built from the exported option `WithDriverConfig`
with a configuration that names a database and no credentials panics in `dial` when
`Dial` fails, instead of returning an error. -/
theorem dial_panics_without_credentials :
    ExportedOption (WithDriverConfig configWithoutCredentials) ∧
      (∀ d endpoint, failingDial.Dial d endpoint = Except.error (Err.raw 1)) ∧
      (Connector sampleConfigNew { handle := 0 } [WithDriverConfig configWithoutCredentials]).bind
          (connector.dial failingDial)
        = Run.panic "nil credentials" ∧
      (Connector sampleConfigNew { handle := 0 } [WithDriverConfig configWithoutCredentials]).bind
          (connector.Connect failingDial)
        = Run.panic "nil credentials" :=
  ⟨ExportedOption.WithDriverConfig configWithoutCredentials, fun _ _ => rfl, rfl, rfl⟩

/-- Witness of C14 as the code behaves: the default configuration holds credentials with
a `String` method, the options set the endpoint and the database, and `Dial` fails with
error 1. -/
theorem dial_failure_wraps_or_panics_witness :
    (Connector sampleConfigNew { handle := 0 } [WithEndpoint "host:2135", WithDatabase "/local"]).bind
        (connector.dial failingDial)
      = Run.ok (none, some (SqlError.Errorf "dial error: %w (credentials: %s)" (Err.raw 1)
          ["anonymous"])) ∧
    ∃ c driverConfig,
      Connector sampleConfigNew { handle := 0 } [WithEndpoint "host:2135", WithDatabase "/local"]
        = Run.ok c ∧
      c.dialer.DriverConfig = some driverConfig ∧
      ∀ e, failingDial.Dial c.dialer c.endpoint = Except.error e →
        (∀ creds, driverConfig.Credentials = some creds →
          ∃ err, c.dial failingDial = Run.ok (none, some err) ∧ err.Unwrap = some e ∧
            c.Connect failingDial = Run.ok (c, (none, some err))) ∧
        (driverConfig.Credentials = none → c.dial failingDial = Run.panic "nil credentials") :=
  ⟨rfl,
    dial_failure_wraps_or_panics sampleConfigNew { handle := 0 }
      [WithEndpoint "host:2135", WithDatabase "/local"]
      (fun o ho => by
        rcases List.mem_cons.mp ho with rfl | ho
        · exact ExportedOption.WithEndpoint "host:2135"
        · rcases List.mem_cons.mp ho with rfl | ho
          · exact ExportedOption.WithDatabase "/local"
          · exact absurd ho (List.not_mem_nil _))
      failingDial⟩

/-! ## Transactions and panics of the user operation -/

/-- On a user operation that returns, the callback for operations that can panic returns
what the callback for returning operations returns, in the same world and with the same
log. -/
theorem doTxCallbackMayPanic_returning {σ : Type} (env : TxEnv σ) (op : TxOperation σ)
    (opts : DoTxOptions) (sess : Session) (w : σ × List TxEvent) :
    doTxCallbackMayPanic env.traced (tracedOpMayPanic (returning op)) opts sess w
      = (Run.ok (doTxCallback env.traced (tracedOp op) opts sess w).1,
          (doTxCallback env.traced (tracedOp op) opts sess w).2) := by
  rcases hb : env.Begin sess opts.TxSettings w.1 with ⟨_ | tx, st1⟩
  · simp [doTxCallbackMayPanic, doCallbackMayPanic, doTxOperationMayPanic, doTxCallback,
      doCallback, doTxOperation, TxEnv.traced, hb]
  · rcases ho : op tx st1 with ⟨_ | e, st2⟩
    · rcases hc : env.CommitTx tx st2 with ⟨_ | e, st3⟩
      · simp [doTxCallbackMayPanic, doCallbackMayPanic, doTxOperationMayPanic, doTxCallback,
          doCallback, doTxOperation, TxEnv.traced, tracedOpMayPanic, returning, tracedOp, hb,
          ho, hc]
      · rcases hr : env.Rollback tx st3 with ⟨_ | r, st4⟩ <;>
          simp [doTxCallbackMayPanic, doCallbackMayPanic, doTxOperationMayPanic,
            doTxCallback, doCallback, doTxOperation, TxEnv.traced, tracedOpMayPanic,
            returning, tracedOp, hb, ho, hc, hr]
    · rcases hr : env.Rollback tx st2 with ⟨_ | r, st3⟩ <;>
        simp [doTxCallbackMayPanic, doCallbackMayPanic, doTxOperationMayPanic, doTxCallback,
          doCallback, doTxOperation, TxEnv.traced, tracedOpMayPanic, returning, tracedOp, hb,
          ho, hr]

/-- C4, as the code behaves.  Take a `DoTx` attempt whose `Begin` opened a transaction,
whatever `CommitTx` and `Rollback` answer.  When the user operation returns, with or
without an error, the callback returns and by then either `CommitTx` has returned
success (state Committed) or `Rollback` has been invoked (state RolledBack or
RollbackFailed).  When the user operation panics, the callback does not return: the
panic propagates, neither `CommitTx` nor `Rollback` is called and the transaction stays
Begun.  On returning operations the callback is the one of the attempt, and the attempt
returns `nil` exactly when `Begin`, the user operation and `CommitTx` all succeeded. -/
theorem doTx_settles_unless_operation_panics {σ : Type} (pool : Pool (σ × List TxEvent))
    (env : TxEnv σ) (op : TxOperation σ) (opP : TxOperationMayPanic σ) (opts : DoTxOptions)
    (sess : Session) (w0 : σ × List TxEvent) (st1 : σ)
    (hPool : pool.RunsCallback w0 sess (st1, [])) :
    (∀ tx st2, env.Begin sess opts.TxSettings st1 = (Except.ok tx, st2) →
      (∀ r, (opP tx st2).1 = Run.ok r →
        (∃ res, (doTxCallbackMayPanic env.traced (tracedOpMayPanic opP) opts sess
            (st1, [])).1 = Run.ok res) ∧
          ((TxEvent.CommitTx tx none
                ∈ (doTxCallbackMayPanic env.traced (tracedOpMayPanic opP) opts sess
                    (st1, [])).2.2 ∧
              txStateAfter (doTxCallbackMayPanic env.traced (tracedOpMayPanic opP) opts sess
                  (st1, [])).2.2 = TxState.Committed) ∨
            ((∃ res, TxEvent.Rollback tx res
                ∈ (doTxCallbackMayPanic env.traced (tracedOpMayPanic opP) opts sess
                    (st1, [])).2.2) ∧
              (txStateAfter (doTxCallbackMayPanic env.traced (tracedOpMayPanic opP) opts sess
                    (st1, [])).2.2 = TxState.RolledBack ∨
                txStateAfter (doTxCallbackMayPanic env.traced (tracedOpMayPanic opP) opts
                    sess (st1, [])).2.2 = TxState.RollbackFailed)))) ∧
      (∀ msg, (opP tx st2).1 = Run.panic msg →
        (doTxCallbackMayPanic env.traced (tracedOpMayPanic opP) opts sess (st1, [])).1
            = Run.panic msg ∧
          (doTxCallbackMayPanic env.traced (tracedOpMayPanic opP) opts sess (st1, [])).2.2
            = [TxEvent.Begin sess opts.TxSettings (Except.ok tx)] ∧
          txStateAfter (doTxCallbackMayPanic env.traced (tracedOpMayPanic opP) opts sess
              (st1, [])).2.2 = TxState.Begun)) ∧
      doTxCallbackMayPanic env.traced (tracedOpMayPanic (returning op)) opts sess (st1, [])
        = (Run.ok (doTxCallback env.traced (tracedOp op) opts sess (st1, [])).1,
            (doTxCallback env.traced (tracedOp op) opts sess (st1, [])).2) ∧
      ((doTxAttempt pool env.traced (tracedOp op) opts w0).1 = none ↔
        ∃ tx st2 st3, env.Begin sess opts.TxSettings st1 = (Except.ok tx, st2) ∧
          op tx st2 = (none, st3) ∧ (env.CommitTx tx st3).1 = none) := by
  refine ⟨fun tx st2 hb => ⟨fun r hr => ?_, fun msg hmsg => ?_⟩,
    doTxCallbackMayPanic_returning env op opts sess (st1, []),
    (doTx_returning_settles pool env op opts sess w0 st1 hPool).2⟩
  · rcases r with _ | e
    · rcases hc : env.CommitTx tx (opP tx st2).2 with ⟨_ | e, st4⟩
      · refine ⟨⟨none, ?_⟩, Or.inl ?_⟩ <;>
          simp [doTxCallbackMayPanic, doCallbackMayPanic, doTxOperationMayPanic, TxEnv.traced,
            tracedOpMayPanic, hb, hr, hc, txStateAfter, TxState.step]
      · rcases hrb : env.Rollback tx st4 with ⟨_ | rb, st5⟩
        · refine ⟨⟨some (Err.withStackTrace (Err.withStackTrace e)), ?_⟩, Or.inr ?_⟩ <;>
            simp [doTxCallbackMayPanic, doCallbackMayPanic, doTxOperationMayPanic,
              TxEnv.traced, tracedOpMayPanic, hb, hr, hc, hrb, txStateAfter, TxState.step]
        · refine ⟨⟨some (Err.withStackTrace (Err.withStackTrace (Err.join e rb))), ?_⟩,
            Or.inr ?_⟩ <;>
            simp [doTxCallbackMayPanic, doCallbackMayPanic, doTxOperationMayPanic,
              TxEnv.traced, tracedOpMayPanic, hb, hr, hc, hrb, txStateAfter, TxState.step]
    · rcases hrb : env.Rollback tx (opP tx st2).2 with ⟨_ | rb, st4⟩
      · refine ⟨⟨some (Err.withStackTrace (Err.withStackTrace e)), ?_⟩, Or.inr ?_⟩ <;>
          simp [doTxCallbackMayPanic, doCallbackMayPanic, doTxOperationMayPanic, TxEnv.traced,
            tracedOpMayPanic, hb, hr, hrb, txStateAfter, TxState.step]
      · refine ⟨⟨some (Err.withStackTrace (Err.withStackTrace (Err.join e rb))), ?_⟩,
          Or.inr ?_⟩ <;>
          simp [doTxCallbackMayPanic, doCallbackMayPanic, doTxOperationMayPanic, TxEnv.traced,
            tracedOpMayPanic, hb, hr, hrb, txStateAfter, TxState.step]
  · simp [doTxCallbackMayPanic, doCallbackMayPanic, doTxOperationMayPanic, TxEnv.traced,
      tracedOpMayPanic, hb, hmsg, txStateAfter, TxState.step]

/-- C4 fails as stated: `Begin` opens transaction 5 and the user operation panics; the
callback unwinds with that panic, the only call that has returned is `Begin`, so neither
a successful `CommitTx` nor any `Rollback` is in the log, and the transaction is still
Begun. -/
theorem doTx_panicking_operation_leaves_transaction_open :
    doTxCallbackMayPanic (scriptedTx none none none).traced (tracedOpMayPanic panickingOp)
        sampleOpts sampleSession ((), [])
      = (Run.panic "boom",
          ((), [TxEvent.Begin sampleSession sampleOpts.TxSettings
            (Except.ok { handle := 5 })])) ∧
    TxEvent.CommitTx { handle := 5 } none
      ∉ (doTxCallbackMayPanic (scriptedTx none none none).traced (tracedOpMayPanic panickingOp)
          sampleOpts sampleSession ((), [])).2.2 ∧
    (∀ res, TxEvent.Rollback { handle := 5 } res
      ∉ (doTxCallbackMayPanic (scriptedTx none none none).traced (tracedOpMayPanic panickingOp)
          sampleOpts sampleSession ((), [])).2.2) ∧
    txStateAfter
        (doTxCallbackMayPanic (scriptedTx none none none).traced (tracedOpMayPanic panickingOp)
          sampleOpts sampleSession ((), [])).2.2
      = TxState.Begun := by
  have h : doTxCallbackMayPanic (scriptedTx none none none).traced
      (tracedOpMayPanic panickingOp) sampleOpts sampleSession ((), [])
      = (Run.panic "boom",
          ((), [TxEvent.Begin sampleSession sampleOpts.TxSettings
            (Except.ok { handle := 5 })])) := rfl
  refine ⟨h, ?_, ?_, ?_⟩
  · rw [h]; simp
  · intro res; rw [h]; simp
  · rw [h]; rfl

/-- Witness of C4 as the code behaves: `CommitTx` fails with error 3 and `Rollback` with
error 2 after a user operation that returned; the callback returns and the transaction
is in state RollbackFailed. -/
theorem doTx_settles_unless_operation_panics_witness :
    doTxCallbackMayPanic (scriptedTx none (some (Err.raw 3)) (some (Err.raw 2))).traced
        (tracedOpMayPanic (returning (scriptedOp none))) sampleOpts sampleSession ((), [])
      = (Run.ok (some (Err.stack 2 (Err.join (Err.raw 3) (Err.raw 2)))),
          ((), [TxEvent.Begin sampleSession sampleOpts.TxSettings (Except.ok { handle := 5 }),
            TxEvent.op { handle := 5 } none,
            TxEvent.CommitTx { handle := 5 } (some (Err.raw 3)),
            TxEvent.Rollback { handle := 5 } (some (Err.raw 2))])) ∧
    txStateAfter
        (doTxCallbackMayPanic (scriptedTx none (some (Err.raw 3)) (some (Err.raw 2))).traced
          (tracedOpMayPanic (returning (scriptedOp none))) sampleOpts sampleSession
          ((), [])).2.2
      = TxState.RollbackFailed ∧
    ((doTxAttempt (Pool.direct sampleSession)
          (scriptedTx none (some (Err.raw 3)) (some (Err.raw 2))).traced
          (tracedOp (scriptedOp none)) sampleOpts ((), [])).1 = none ↔
      ∃ tx st2 st3,
        (scriptedTx none (some (Err.raw 3)) (some (Err.raw 2))).Begin sampleSession
            sampleOpts.TxSettings () = (Except.ok tx, st2) ∧
          scriptedOp none tx st2 = (none, st3) ∧
          ((scriptedTx none (some (Err.raw 3)) (some (Err.raw 2))).CommitTx tx st3).1 = none) :=
  ⟨rfl, rfl,
    (doTx_settles_unless_operation_panics (Pool.direct sampleSession)
      (scriptedTx none (some (Err.raw 3)) (some (Err.raw 2))) (scriptedOp none)
      (returning (scriptedOp none)) sampleOpts sampleSession ((), []) ()
      (Pool.direct_runsCallback sampleSession ((), []))).2.2⟩

end YdbQuery
